import Mathlib

/-!
Shallow embedding of the incremental retail ETL pipeline
(`src/etl/incremental_etl_pipeline.py`, class `IncrementalETLPipeline`).

Modelling conventions:
* Numeric CSV cells are modelled after `pd.to_numeric(..., errors='coerce')`:
  an `Option` value, `none` standing for a null cell or a cell that failed to
  parse (both become NaN and are treated alike downstream).
* The invoice-date cell is modelled with three states because
  `pd.to_datetime` (no `errors='coerce'`) distinguishes them: a null cell
  becomes NaT (later dropped by `dropna`), while a non-null unparseable cell
  raises an exception that aborts the whole batch load.
* SQL NULL-propagating operations (`+`, `/`, `LEAST`, `GREATEST`, `AVG`,
  `DATEDIFF`) are modelled on `Option` with explicit null propagation,
  following Snowflake semantics (`LEAST`/`GREATEST` return NULL if any
  argument is NULL).
* Timestamps are abstracted to integers (order and day arithmetic preserved);
  derived calendar parts of fact rows (year/month/day-of-week) are outside
  the model, no claim mentions them.
* The warehouse tables are explicit state: staging is a list (append-only in
  the code), the three dimension tables are key-indexed maps, the fact table
  a list, the execution log a list of entries with a logical clock providing
  `START_TIME` values.
-/

namespace DatalakeDemo

/-- Result of `pd.to_datetime` on one cell of the `INVOICE_DATE` column:
null (NaT after conversion), non-null but unparseable (raises), or parsed. -/
inductive DateCell where
  | null : DateCell
  | unparseable : DateCell
  | ok (t : Int) : DateCell
deriving DecidableEq, Repr

/-- One raw CSV row of the retail extract, after the column renaming and the
`pd.to_numeric(..., errors='coerce')` conversions of
`load_batch_to_staging` (lines 100-117). -/
structure RawRecord where
  invoiceNo : Option String
  stockCode : Option String
  description : Option String
  quantity : Option Int
  invoiceDate : DateCell
  unitPrice : Option Rat
  customerId : Option Int
  country : String
deriving DecidableEq, Repr

/-- One row of `RAW_DATA.ONLINE_RETAIL_STAGING` as written by the insert loop
of `load_batch_to_staging` (lines 161-203). -/
structure StagedRecord where
  invoiceNo : String
  stockCode : String
  description : Option String
  quantity : Int
  invoiceDate : Int
  unitPrice : Rat
  customerId : Option Int
  country : String
  fileName : String
  rowNumberInFile : Nat
  dataSource : String
  hasMissingCustomerId : Bool
  isReturn : Bool
  totalAmount : Rat
deriving DecidableEq, Repr

/-- The fixed batch size `self.batch_size = 1000` (line 27). -/
def batchSize : Nat := 1000

/-- `get_last_processed_row` (lines 29-41): `MAX(ROW_NUMBER_IN_FILE)` over
the staging table, 0 when the table is empty; the surrounding
`try/except` returns 0 when the query itself fails, modelled by the
`queryFails` flag. -/
def get_last_processed_row (queryFails : Bool) (staging : List StagedRecord) : Nat :=
  if queryFails then 0
  else (staging.map (·.rowNumberInFile)).foldr max 0

/-- The row-kept test of the cleaning step (lines 119-122):
`dropna(subset=['INVOICE_NO','STOCK_CODE','INVOICE_DATE','QUANTITY','UNIT_PRICE'])`
followed by `df[df['QUANTITY'] != 0]`.  At this point the date column holds
either NaT (from a null cell) or a parsed timestamp; unparseable cells have
already raised. -/
def keepRecord (r : RawRecord) : Bool :=
  r.invoiceNo.isSome && r.stockCode.isSome &&
    (match r.invoiceDate with | .ok _ => true | _ => false) &&
    r.quantity.isSome && r.unitPrice.isSome && !(r.quantity == some 0)

/-- Whether `pd.to_datetime(df['INVOICE_DATE'])` (line 114) raises on this
window: it does exactly when some cell is non-null but unparseable. -/
def hasUnparseableDate (rows : List RawRecord) : Bool :=
  rows.any fun r => match r.invoiceDate with | .unparseable => true | _ => false

/-- Pair each element with its source-row ordinal, starting at `start`:
`df['ROW_NUMBER_IN_FILE'] = range(start_row, start_row + len(df))`
(line 130), applied to the cleaned rows. -/
def withOrdinals (start : Nat) : List RawRecord → List (RawRecord × Nat)
  | [] => []
  | x :: xs => (x, start) :: withOrdinals (start + 1) xs

/-- Build the staged row for a cleaned record (metadata columns of
lines 127-134 and the insert of lines 161-196).  The `getD` defaults are
never exercised: the record has passed `keepRecord`. -/
def mkStaged (batchNumber ord : Nat) (r : RawRecord) : StagedRecord :=
  { invoiceNo := r.invoiceNo.getD ""
    stockCode := r.stockCode.getD ""
    description := r.description
    quantity := r.quantity.getD 0
    invoiceDate := match r.invoiceDate with | .ok t => t | _ => 0
    unitPrice := r.unitPrice.getD 0
    customerId := r.customerId
    country := r.country
    fileName := "online_retail_batch_" ++ toString batchNumber ++ ".csv"
    rowNumberInFile := ord
    dataSource := "CSV_BATCH_" ++ toString batchNumber
    hasMissingCustomerId := r.customerId.isNone
    isReturn := decide (r.quantity.getD 0 < 0)
    totalAmount := (r.quantity.getD 0 : Rat) * r.unitPrice.getD 0 }

/-- The synthetic transaction key
`CONCAT(INVOICE_NO, '_', STOCK_CODE, '_', ROW_NUMBER_IN_FILE)`
(line 138 and line 144). -/
def transactionKey (r : StagedRecord) : String :=
  r.invoiceNo ++ "_" ++ r.stockCode ++ "_" ++ toString r.rowNumberInFile

/-- Structural-recursion form of `Nat.toDigitsCore` at base 10, used to
reason about the decimal rendering of the source-row ordinal inside the
synthetic key. -/
def decDigits (n : Nat) : List Char :=
  if n / 10 = 0 then [Nat.digitChar (n % 10)]
  else decDigits (n / 10) ++ [Nat.digitChar (n % 10)]
decreasing_by omega

/-- `load_batch_to_staging` (lines 84-210).  The CSV source is an
`Except`-value: `.error` models an unreadable extract (the outer
`try/except` then returns 0).  Returns the loaded count and the new staging
table.  The window read models
`pd.read_csv(csv_file, skiprows=range(1, start_row), nrows=end_row - start_row + 1)`. -/
def batchWindowRows (file : List RawRecord) (startRow endRow : Nat) : List RawRecord :=
  (file.drop (startRow - 1)).take (endRow - startRow + 1)

/-- The staged-row candidates of a batch: the cleaned rows, stamped with
the contiguous ordinals `range(start_row, start_row + len(df))`
(lines 127-134). -/
def batchCandidates (batchNumber startRow : Nat) (cleaned : List RawRecord) :
    List StagedRecord :=
  (withOrdinals startRow cleaned).map fun p => mkStaged batchNumber p.2 p.1

/-- The dedup filter (lines 136-155): drop every candidate whose synthetic
key already exists among previously staged records. -/
def dedupNew (staging candidates : List StagedRecord) : List StagedRecord :=
  candidates.filter fun c => !((staging.map transactionKey).contains (transactionKey c))

def load_batch_to_staging (csv : Except String (List RawRecord))
    (batchNumber startRow endRow : Nat) (staging : List StagedRecord) :
    Nat × List StagedRecord :=
  match csv with
  | .error _ => (0, staging)
  | .ok file =>
    let window := batchWindowRows file startRow endRow
    if window.isEmpty then (0, staging)
    else if hasUnparseableDate window then (0, staging)
    else
      let newRecords := dedupNew staging
        (batchCandidates batchNumber startRow (window.filter keepRecord))
      if newRecords.isEmpty then (0, staging)
      else (newRecords.length, staging ++ newRecords)

/-! ### SQL helpers (Snowflake NULL semantics) -/

/-- NULL-propagating addition: `a + b` is NULL when either side is NULL. -/
def sqlAdd (a b : Option Rat) : Option Rat :=
  match a, b with
  | some x, some y => some (x + y)
  | _, _ => none

/-- NULL-propagating halving, for `(x + y) / 2`. -/
def sqlHalf (a : Option Rat) : Option Rat := a.map (· / 2)

/-- Snowflake `LEAST`: NULL if any argument is NULL. -/
def sqlLeast (a b : Option Int) : Option Int :=
  match a, b with
  | some x, some y => some (min x y)
  | _, _ => none

/-- Snowflake `GREATEST`: NULL if any argument is NULL. -/
def sqlGreatest (a b : Option Int) : Option Int :=
  match a, b with
  | some x, some y => some (max x y)
  | _, _ => none

/-- Snowflake `LEAST` on numeric columns. -/
def sqlLeastQ (a b : Option Rat) : Option Rat :=
  match a, b with
  | some x, some y => some (min x y)
  | _, _ => none

/-- Snowflake `GREATEST` on numeric columns. -/
def sqlGreatestQ (a b : Option Rat) : Option Rat :=
  match a, b with
  | some x, some y => some (max x y)
  | _, _ => none

/-- `COALESCE(a, b)`. -/
def sqlCoalesce {α : Type} (a b : Option α) : Option α :=
  match a with
  | some x => some x
  | none => b

/-- SQL `AVG` of a list of non-null values: NULL when the list is empty. -/
def sqlAvg (l : List Rat) : Option Rat :=
  if l.isEmpty then none else some (l.sum / l.length)

/-- SQL `MIN` over non-null values (NULL when no rows). -/
def sqlMin (l : List Int) : Option Int := l.foldr (fun x acc =>
  match acc with | none => some x | some y => some (min x y)) none

/-- SQL `MAX` over non-null values (NULL when no rows). -/
def sqlMax (l : List Int) : Option Int := l.foldr (fun x acc =>
  match acc with | none => some x | some y => some (max x y)) none

/-- SQL `MIN` on numeric columns. -/
def sqlMinQ (l : List Rat) : Option Rat := l.foldr (fun x acc =>
  match acc with | none => some x | some y => some (min x y)) none

/-- SQL `MAX` on numeric columns. -/
def sqlMaxQ (l : List Rat) : Option Rat := l.foldr (fun x acc =>
  match acc with | none => some x | some y => some (max x y)) none

/-- SQL `MAX` on a string column. -/
def sqlMaxS (l : List String) : Option String := l.foldr (fun x acc =>
  match acc with | none => some x | some y => some (if x < y then y else x)) none

/-- The filter `DATA_SOURCE LIKE '%BATCH_%'` used by all three dimension
MERGE statements (lines 233, 275, 326).  Note the pattern has no batch
number: it matches the provenance tag `CSV_BATCH_<n>` of EVERY batch. -/
def likeBatch (s : String) : Bool :=
  decide ("BATCH_".toList <:+: s.toList)

/-! ### Dimension tables -/

/-- One row of `PROCESSED_DATA.PRODUCTS`. -/
structure ProductAgg where
  description : Option String
  totalQuantitySold : Int
  totalRevenue : Rat
  averageUnitPrice : Option Rat
  minUnitPrice : Option Rat
  maxUnitPrice : Option Rat
  firstSaleDate : Option Int
  lastSaleDate : Option Int
  uniqueCustomers : Nat
deriving DecidableEq, Repr

/-- One row of `PROCESSED_DATA.CUSTOMERS`. -/
structure CustomerAgg where
  country : Option String
  firstPurchaseDate : Option Int
  lastPurchaseDate : Option Int
  totalOrders : Nat
  totalItemsPurchased : Int
  totalAmountSpent : Rat
  averageOrderValue : Option Rat
  customerSegment : String
  daysSinceLastPurchase : Option Int
  updatedAt : Int
deriving DecidableEq, Repr

/-- One row of `PROCESSED_DATA.COUNTRIES`. -/
structure CountryAgg where
  totalCustomers : Nat
  totalOrders : Nat
  totalRevenue : Rat
  firstOrderDate : Option Int
  lastOrderDate : Option Int
deriving DecidableEq, Repr

/-- The grouped source row of the products MERGE (lines 220-236) for one
stock code `p`: aggregates over the staging rows selected by
`DATA_SOURCE LIKE '%BATCH_%' AND STOCK_CODE IS NOT NULL` (the staged
stock code is non-null by construction), grouped by stock code. -/
def productSourceRows (staging : List StagedRecord) (p : String) : List StagedRecord :=
  staging.filter fun r => likeBatch r.dataSource && r.stockCode == p

/-- `SUM(CASE WHEN QUANTITY > 0 THEN QUANTITY ELSE 0 END)`. -/
def productNewQuantitySold (staging : List StagedRecord) (p : String) : Int :=
  ((productSourceRows staging p).map fun r =>
    if 0 < r.quantity then r.quantity else 0).sum

/-- `SUM(CASE WHEN QUANTITY > 0 THEN TOTAL_AMOUNT ELSE 0 END)`. -/
def productNewRevenue (staging : List StagedRecord) (p : String) : Rat :=
  ((productSourceRows staging p).map fun r =>
    if 0 < r.quantity then r.totalAmount else 0).sum

/-- The positive-quantity rows of the group (the `CASE WHEN QUANTITY > 0`
branches). -/
def productPosRows (staging : List StagedRecord) (p : String) : List StagedRecord :=
  (productSourceRows staging p).filter fun r => decide (0 < r.quantity)

/-- `AVG(CASE WHEN QUANTITY > 0 THEN UNIT_PRICE ELSE NULL END)`. -/
def productAvgUnitPrice (staging : List StagedRecord) (p : String) : Option Rat :=
  sqlAvg ((productPosRows staging p).map (·.unitPrice))

/-- `COUNT(DISTINCT CASE WHEN QUANTITY > 0 THEN CUSTOMER_ID ELSE NULL END)`. -/
def productNewUniqueCustomers (staging : List StagedRecord) (p : String) : Nat :=
  (((productPosRows staging p).filterMap (·.customerId)).dedup).length

/-- The `WHEN MATCHED THEN UPDATE` branch of the products MERGE
(lines 238-248). -/
def productUpdate (target : ProductAgg) (staging : List StagedRecord) (p : String) :
    ProductAgg :=
  { description := sqlCoalesce (sqlMaxS ((productSourceRows staging p).filterMap (·.description)))
      target.description
    totalQuantitySold := target.totalQuantitySold + productNewQuantitySold staging p
    totalRevenue := target.totalRevenue + productNewRevenue staging p
    averageUnitPrice := sqlHalf (sqlAdd target.averageUnitPrice (productAvgUnitPrice staging p))
    minUnitPrice := sqlLeastQ target.minUnitPrice (sqlMinQ ((productPosRows staging p).map (·.unitPrice)))
    maxUnitPrice := sqlGreatestQ target.maxUnitPrice (sqlMaxQ ((productPosRows staging p).map (·.unitPrice)))
    firstSaleDate := sqlLeast target.firstSaleDate (sqlMin ((productPosRows staging p).map (·.invoiceDate)))
    lastSaleDate := sqlGreatest target.lastSaleDate (sqlMax ((productPosRows staging p).map (·.invoiceDate)))
    uniqueCustomers := target.uniqueCustomers + productNewUniqueCustomers staging p }

/-- The `WHEN NOT MATCHED THEN INSERT` branch of the products MERGE
(lines 249-256). -/
def productInsert (staging : List StagedRecord) (p : String) : ProductAgg :=
  { description := sqlMaxS ((productSourceRows staging p).filterMap (·.description))
    totalQuantitySold := productNewQuantitySold staging p
    totalRevenue := productNewRevenue staging p
    averageUnitPrice := productAvgUnitPrice staging p
    minUnitPrice := sqlMinQ ((productPosRows staging p).map (·.unitPrice))
    maxUnitPrice := sqlMaxQ ((productPosRows staging p).map (·.unitPrice))
    firstSaleDate := sqlMin ((productPosRows staging p).map (·.invoiceDate))
    lastSaleDate := sqlMax ((productPosRows staging p).map (·.invoiceDate))
    uniqueCustomers := productNewUniqueCustomers staging p }

/-- The whole products MERGE (lines 218-258) as a map transformer: a key is
touched exactly when the grouped source has a row for it. -/
def mergeProducts (staging : List StagedRecord) (products : String → Option ProductAgg) :
    String → Option ProductAgg :=
  fun p =>
    if (productSourceRows staging p).isEmpty then products p
    else
      match products p with
      | some t => some (productUpdate t staging p)
      | none => some (productInsert staging p)

/-- The grouped source rows of the customers MERGE (lines 262-278) for one
customer id: `WHERE DATA_SOURCE LIKE '%BATCH_%' AND CUSTOMER_ID IS NOT NULL
AND QUANTITY > 0`, grouped by customer id. -/
def customerSourceRows (staging : List StagedRecord) (c : Int) : List StagedRecord :=
  staging.filter fun r =>
    likeBatch r.dataSource && r.customerId == some c && decide (0 < r.quantity)

/-- `COUNT(DISTINCT INVOICE_NO)` for the group. -/
def customerNewOrders (staging : List StagedRecord) (c : Int) : Nat :=
  (((customerSourceRows staging c).map (·.invoiceNo)).dedup).length

/-- `SUM(CASE WHEN QUANTITY > 0 THEN QUANTITY ELSE 0 END)` for the group. -/
def customerNewItems (staging : List StagedRecord) (c : Int) : Int :=
  ((customerSourceRows staging c).map fun r =>
    if 0 < r.quantity then r.quantity else 0).sum

/-- `SUM(CASE WHEN QUANTITY > 0 THEN TOTAL_AMOUNT ELSE 0 END)` for the group. -/
def customerNewAmount (staging : List StagedRecord) (c : Int) : Rat :=
  ((customerSourceRows staging c).map fun r =>
    if 0 < r.quantity then r.totalAmount else 0).sum

/-- `AVG(CASE WHEN QUANTITY > 0 THEN TOTAL_AMOUNT ELSE NULL END)`. -/
def customerAvgOrderValue (staging : List StagedRecord) (c : Int) : Option Rat :=
  sqlAvg (((customerSourceRows staging c).filter fun r => decide (0 < r.quantity)).map (·.totalAmount))

/-- The `WHEN MATCHED THEN UPDATE` branch of the customers MERGE
(lines 280-288); `UPDATED_AT = CURRENT_TIMESTAMP()` is modelled by the
`now` argument. -/
def customerUpdate (now : Int) (target : CustomerAgg) (staging : List StagedRecord) (c : Int) :
    CustomerAgg :=
  { country := sqlCoalesce (sqlMaxS ((customerSourceRows staging c).map (·.country)))
      target.country
    firstPurchaseDate := sqlLeast target.firstPurchaseDate
      (sqlMin ((customerSourceRows staging c).map (·.invoiceDate)))
    lastPurchaseDate := sqlGreatest target.lastPurchaseDate
      (sqlMax ((customerSourceRows staging c).map (·.invoiceDate)))
    totalOrders := target.totalOrders + customerNewOrders staging c
    totalItemsPurchased := target.totalItemsPurchased + customerNewItems staging c
    totalAmountSpent := target.totalAmountSpent + customerNewAmount staging c
    averageOrderValue := sqlHalf (sqlAdd target.averageOrderValue (customerAvgOrderValue staging c))
    customerSegment := target.customerSegment
    daysSinceLastPurchase := target.daysSinceLastPurchase
    updatedAt := now }

/-- The `WHEN NOT MATCHED THEN INSERT` branch of the customers MERGE
(lines 289-294).  Columns not in the insert list take their defaults;
`UPDATED_AT` is stamped `now` (column default `CURRENT_TIMESTAMP()`). -/
def customerInsert (now : Int) (staging : List StagedRecord) (c : Int) : CustomerAgg :=
  { country := sqlMaxS ((customerSourceRows staging c).map (·.country))
    firstPurchaseDate := sqlMin ((customerSourceRows staging c).map (·.invoiceDate))
    lastPurchaseDate := sqlMax ((customerSourceRows staging c).map (·.invoiceDate))
    totalOrders := customerNewOrders staging c
    totalItemsPurchased := customerNewItems staging c
    totalAmountSpent := customerNewAmount staging c
    averageOrderValue := customerAvgOrderValue staging c
    customerSegment := ""
    daysSinceLastPurchase := none
    updatedAt := now }

/-- The whole customers MERGE (lines 262-296). -/
def mergeCustomers (now : Int) (staging : List StagedRecord)
    (customers : Int → Option CustomerAgg) : Int → Option CustomerAgg :=
  fun c =>
    if (customerSourceRows staging c).isEmpty then customers c
    else
      match customers c with
      | some t => some (customerUpdate now t staging c)
      | none => some (customerInsert now staging c)

/-- The `CASE` expression of the segmentation UPDATE (lines 301-307). -/
def segmentOfSpend (spend : Rat) : String :=
  if spend ≥ 10000 then "VIP"
  else if spend ≥ 5000 then "HIGH_VALUE"
  else if spend ≥ 1000 then "MEDIUM_VALUE"
  else if spend > 0 then "LOW_VALUE"
  else "NEW"

/-- The per-row effect of the segmentation UPDATE (lines 299-311) on a
customer row satisfying `UPDATED_AT >= CURRENT_DATE()`; `today` models
`CURRENT_DATE()`. -/
def applySegment (today : Int) (c : CustomerAgg) : CustomerAgg :=
  { c with
    customerSegment := segmentOfSpend c.totalAmountSpent
    daysSinceLastPurchase := c.lastPurchaseDate.map (today - ·) }

/-- The whole segmentation UPDATE as a map transformer. -/
def segmentPass (today : Int) (customers : Int → Option CustomerAgg) :
    Int → Option CustomerAgg :=
  fun c => (customers c).map fun agg =>
    if agg.updatedAt ≥ today then applySegment today agg else agg

/-- The grouped source rows of the countries MERGE (lines 316-329) for one
country: `WHERE DATA_SOURCE LIKE '%BATCH_%' AND COUNTRY IS NOT NULL` (the
staged country is a non-null string by construction). -/
def countrySourceRows (staging : List StagedRecord) (k : String) : List StagedRecord :=
  staging.filter fun r => likeBatch r.dataSource && r.country == k

/-- The `WHEN MATCHED THEN UPDATE` branch of the countries MERGE
(lines 331-337). -/
def countryUpdate (target : CountryAgg) (staging : List StagedRecord) (k : String) :
    CountryAgg :=
  { totalCustomers := target.totalCustomers +
      (((countrySourceRows staging k).filterMap (·.customerId)).dedup).length
    totalOrders := target.totalOrders +
      (((countrySourceRows staging k).map (·.invoiceNo)).dedup).length
    totalRevenue := target.totalRevenue +
      ((countrySourceRows staging k).map fun r =>
        if 0 < r.quantity then r.totalAmount else 0).sum
    firstOrderDate := sqlLeast target.firstOrderDate
      (sqlMin ((countrySourceRows staging k).map (·.invoiceDate)))
    lastOrderDate := sqlGreatest target.lastOrderDate
      (sqlMax ((countrySourceRows staging k).map (·.invoiceDate))) }

/-- The `WHEN NOT MATCHED THEN INSERT` branch of the countries MERGE
(lines 338-343). -/
def countryInsert (staging : List StagedRecord) (k : String) : CountryAgg :=
  { totalCustomers := (((countrySourceRows staging k).filterMap (·.customerId)).dedup).length
    totalOrders := (((countrySourceRows staging k).map (·.invoiceNo)).dedup).length
    totalRevenue := ((countrySourceRows staging k).map fun r =>
      if 0 < r.quantity then r.totalAmount else 0).sum
    firstOrderDate := sqlMin ((countrySourceRows staging k).map (·.invoiceDate))
    lastOrderDate := sqlMax ((countrySourceRows staging k).map (·.invoiceDate)) }

/-- The whole countries MERGE (lines 315-345). -/
def mergeCountries (staging : List StagedRecord)
    (countries : String → Option CountryAgg) : String → Option CountryAgg :=
  fun k =>
    if (countrySourceRows staging k).isEmpty then countries k
    else
      match countries k with
      | some t => some (countryUpdate t staging k)
      | none => some (countryInsert staging k)

/-! ### Fact table, execution log, orchestrator -/

/-- One row of `PROCESSED_DATA.TRANSACTIONS` as produced by
`append_to_transactions_fact` (lines 357-391); the derived calendar parts
(`YEAR`, `MONTH`, `DAYOFWEEK`) are outside the model. -/
structure FactRow where
  transactionId : String
  invoiceNo : String
  stockCode : String
  customerId : Option Int
  description : Option String
  quantity : Int
  unitPrice : Rat
  totalAmount : Rat
  invoiceDate : Int
  country : String
  transactionType : String
  isGuestPurchase : Bool
  sourceFile : String
deriving DecidableEq, Repr

/-- The `CASE` on the sign of `QUANTITY` (lines 377-381). -/
def transactionTypeOf (q : Int) : String :=
  if 0 < q then "SALE" else if q < 0 then "RETURN" else "UNKNOWN"

/-- The SELECT row construction of `append_to_transactions_fact`
(lines 363-383). -/
def mkFactRow (r : StagedRecord) : FactRow :=
  { transactionId := transactionKey r
    invoiceNo := r.invoiceNo
    stockCode := r.stockCode
    customerId := r.customerId
    description := r.description
    quantity := r.quantity
    unitPrice := r.unitPrice
    totalAmount := r.totalAmount
    invoiceDate := r.invoiceDate
    country := r.country
    transactionType := transactionTypeOf r.quantity
    isGuestPurchase := r.customerId.isNone
    sourceFile := r.fileName }

/-- The WHERE clause of `append_to_transactions_fact` (lines 385-390):
exact provenance match on this batch plus the validity predicate.  The
staged key fields are non-null by construction, so only the provenance and
`QUANTITY != 0` filters can exclude a row. -/
def factFilter (batchNumber : Nat) (r : StagedRecord) : Bool :=
  r.dataSource == "CSV_BATCH_" ++ toString batchNumber && !(r.quantity == 0)

/-- `append_to_transactions_fact` (lines 352-398) on the fact-table state. -/
def append_to_transactions_fact (batchNumber : Nat) (staging : List StagedRecord)
    (facts : List FactRow) : List FactRow :=
  facts ++ (staging.filter (factFilter batchNumber)).map mkFactRow

/-- One row of `METADATA.PIPELINE_EXECUTION_LOG`; `START_TIME`/`END_TIME`
are drawn from a logical clock. -/
structure LogEntry where
  executionType : Nat
  status : String
  rowsProcessed : Nat
  rowsInserted : Nat
  errorMessage : Option String
  startTime : Nat
  endTime : Option Nat
deriving DecidableEq, Repr

/-- The full warehouse plus the orchestrator's logical clock (`now` feeds
`CURRENT_TIMESTAMP()` values into the log, `today` feeds `CURRENT_DATE()`
into the segmentation pass). -/
structure DB where
  staging : List StagedRecord
  products : String → Option ProductAgg
  customers : Int → Option CustomerAgg
  countries : String → Option CountryAgg
  facts : List FactRow
  log : List LogEntry
  clock : Nat
  today : Int

/-- The empty warehouse. -/
def DB.empty : DB :=
  { staging := []
    products := fun _ => none
    customers := fun _ => none
    countries := fun _ => none
    facts := []
    log := []
    clock := 0
    today := 0 }

/-- `log_batch_start` (lines 43-57): INSERT of a RUNNING entry with
`ROWS_PROCESSED` equal to the window size. -/
def log_batch_start (db : DB) (batchNumber startRow endRow : Nat) : DB :=
  { db with
    log := db.log ++ [{ executionType := batchNumber
                        status := "RUNNING"
                        rowsProcessed := endRow - startRow + 1
                        rowsInserted := 0
                        errorMessage := none
                        startTime := db.clock
                        endTime := none }]
    clock := db.clock + 1 }

/-- The correlated subquery of `log_batch_end` (lines 73-77):
`MAX(START_TIME)` over all entries of this `EXECUTION_TYPE`. -/
def maxStartTime (log : List LogEntry) (batchNumber : Nat) : Nat :=
  ((log.filter fun e => e.executionType == batchNumber).map (·.startTime)).foldr max 0

/-- `log_batch_end` (lines 59-82): UPDATE of the RUNNING entry of this
batch that carries the latest `START_TIME`; the `ERROR_MESSAGE` column is
only touched when an error message is supplied. -/
def log_batch_end (db : DB) (batchNumber : Nat) (status : String) (rowsLoaded : Nat)
    (errorMsg : Option String) : DB :=
  { db with
    log := db.log.map fun e =>
      if e.executionType == batchNumber && e.status == "RUNNING" &&
          e.startTime == maxStartTime db.log batchNumber then
        { e with
          status := status
          rowsInserted := rowsLoaded
          errorMessage := match errorMsg with | some m => some m | none => e.errorMessage
          endTime := some db.clock }
      else e }

/-- `update_dimensions_incremental` (lines 212-350) on the warehouse:
products MERGE, customers MERGE, segmentation UPDATE, countries MERGE, in
the source's order. -/
def update_dimensions_incremental (db : DB) : DB :=
  { db with
    products := mergeProducts db.staging db.products
    customers := segmentPass db.today
      (mergeCustomers db.today db.staging db.customers)
    countries := mergeCountries db.staging db.countries }

/-- Fault-injection points for the exceptions the orchestrator's
`try/except` (lines 474-477) can observe: `update_dimensions_incremental`
and `append_to_transactions_fact` re-raise their errors (lines 348-350,
396-398), while `get_last_processed_row` and `load_batch_to_staging`
swallow theirs. -/
structure Faults where
  lastRowQuery : Bool
  dimensions : Bool
  factAppend : Bool
deriving DecidableEq, Repr

/-- No injected faults. -/
def Faults.none : Faults := ⟨false, false, false⟩

/-- Window resolution of `run_incremental_batch` (lines 424-429). -/
def resolveBatchNumber (db : DB) (requested : Option Nat) (faults : Faults) : Nat :=
  match requested with
  | some b => b
  | none => get_last_processed_row faults.lastRowQuery db.staging / batchSize + 1

/-- `start_row = ((batch_number - 1) * batch_size) + 1`,
`end_row = batch_number * batch_size` (lines 428-429). -/
def batchWindow (batchNumber : Nat) : Nat × Nat :=
  ((batchNumber - 1) * batchSize + 1, batchNumber * batchSize)

/-- `run_incremental_batch` (lines 420-477): resolve window, log start,
load staging, stop with a COMPLETED/0 entry when nothing was loaded,
otherwise update dimensions and append facts, logging COMPLETED with the
loaded count; any exception raised by the dimension or fact steps is
caught and logged as FAILED with `rows_loaded = 0`.  Returns the `True`/
`False` result together with the final warehouse state. -/
def run_incremental_batch (db : DB) (csv : Except String (List RawRecord))
    (requested : Option Nat) (faults : Faults) : Bool × DB :=
  let batchNumber := resolveBatchNumber db requested faults
  let startRow := (batchWindow batchNumber).1
  let endRow := (batchWindow batchNumber).2
  let db1 := log_batch_start db batchNumber startRow endRow
  let loadResult := load_batch_to_staging csv batchNumber startRow endRow db1.staging
  let db2 := { db1 with staging := loadResult.2 }
  if loadResult.1 == 0 then
    (false, log_batch_end db2 batchNumber "COMPLETED" 0 (some "No new data to load"))
  else if faults.dimensions then
    (false, log_batch_end db2 batchNumber "FAILED" 0 (some "Error updating dimensions"))
  else
    let db3 := update_dimensions_incremental db2
    if faults.factAppend then
      (false, log_batch_end db3 batchNumber "FAILED" 0 (some "Error appending to transactions"))
    else
      let db4 := { db3 with facts := append_to_transactions_fact batchNumber db3.staging db3.facts }
      (true, log_batch_end db4 batchNumber "COMPLETED" loadResult.1 none)

/-- The process exit code of `main` (lines 525-530):
`sys.exit(0 if success else 1)`. -/
def mainExitCode (success : Bool) : Nat :=
  if success then 0 else 1

/-! ### Concrete inputs used by witnesses and counterexamples -/

/-- A fully valid raw record. -/
def goodRaw : RawRecord :=
  { invoiceNo := some "536365"
    stockCode := some "85123A"
    description := some "WHITE HANGING HEART"
    quantity := some 6
    invoiceDate := .ok 100
    unitPrice := some 2
    customerId := some 17850
    country := "United Kingdom" }

/-- A record whose invoice-date cell is present but unparseable: feeding it
to `pd.to_datetime` raises. -/
def badDateRaw : RawRecord :=
  { invoiceNo := some "536366"
    stockCode := some "71053"
    description := some "WHITE METAL LANTERN"
    quantity := some 3
    invoiceDate := .unparseable
    unitPrice := some 4
    customerId := some 17850
    country := "United Kingdom" }

/-- A record with a null invoice id: rejected by `dropna`. -/
def junkRaw : RawRecord :=
  { invoiceNo := none
    stockCode := some "PAD"
    description := none
    quantity := some 1
    invoiceDate := .ok 0
    unitPrice := some 1
    customerId := none
    country := "X" }

/-- Batch-1 sale of product `P1`, quantity 1. -/
def saleRaw1 : RawRecord :=
  { invoiceNo := some "I1"
    stockCode := some "P1"
    description := some "PRODUCT ONE"
    quantity := some 1
    invoiceDate := .ok 10
    unitPrice := some 2
    customerId := none
    country := "France" }

/-- Batch-2 sale of the same product `P1`, quantity 1. -/
def saleRaw2 : RawRecord :=
  { invoiceNo := some "I2"
    stockCode := some "P1"
    description := some "PRODUCT ONE"
    quantity := some 1
    invoiceDate := .ok 20
    unitPrice := some 2
    customerId := none
    country := "France" }

/-- A source extract whose batch-1 window holds one valid `P1` sale (plus
999 rejected padding rows) and whose batch-2 window holds a second,
disjoint `P1` sale at source row 1001. -/
def csvTwoBatches : List RawRecord :=
  (saleRaw1 :: List.replicate 999 junkRaw) ++ [saleRaw2]

/-- Fault injection making `update_dimensions_incremental` raise. -/
def dimFault : Faults := ⟨false, true, false⟩

/-- A customer aggregate with a known average order value. -/
def sampleCustomer : CustomerAgg :=
  { country := some "France"
    firstPurchaseDate := some 1
    lastPurchaseDate := some 2
    totalOrders := 1
    totalItemsPurchased := 2
    totalAmountSpent := 100
    averageOrderValue := some 2
    customerSegment := "LOW_VALUE"
    daysSinceLastPurchase := some 0
    updatedAt := 0 }

/-- A single sale of product `P` at unit price 1. -/
def oneRaw : RawRecord :=
  { invoiceNo := some "I0"
    stockCode := some "P"
    description := some "D"
    quantity := some 1
    invoiceDate := .ok 1
    unitPrice := some 1
    customerId := some 1
    country := "X" }

/-- A sale of product `P` at unit price 4. -/
def fourRaw : RawRecord :=
  { invoiceNo := some "I3"
    stockCode := some "P"
    description := some "D"
    quantity := some 1
    invoiceDate := .ok 5
    unitPrice := some 4
    customerId := some 1
    country := "X" }

/-- The product aggregate created from one staged row of `oneRaw`
(average unit price 1 over one underlying row). -/
def priorProduct : ProductAgg := productInsert [mkStaged 1 9 oneRaw] "P"

/-- Three staged rows of `fourRaw` (batch average unit price 4 over three
underlying rows). -/
def threeFourRows : List StagedRecord :=
  [mkStaged 1 1 fourRaw, mkStaged 1 2 fourRaw, mkStaged 1 3 fourRaw]

/-!
## Theorems
-/

/-- The `LIKE '%BATCH_%'` pattern matches the provenance tag of every
batch. -/
theorem likeBatch_tag (x : String) : likeBatch ("CSV_BATCH_" ++ x) = true := by
  have h1 : "BATCH_".toList <:+: "CSV_BATCH_".toList := by decide
  have h2 : ("CSV_BATCH_" ++ x).toList = "CSV_BATCH_".toList ++ x.toList := rfl
  simp only [likeBatch, h2, decide_eq_true_eq]
  exact h1.trans ⟨[], x.toList, by simp⟩

/-- **C4.** For every batch number `n ≥ 1` with fixed batch size 1000 the
resolved window is `start_row = (n-1)*1000 + 1`, `end_row = n*1000`; when no
batch number is supplied the batch number is `floor(M/1000) + 1` where `M`
is the staging store's maximum source-row ordinal (0 when the store is
empty or the `MAX` query fails), so an empty store yields batch 1 with rows
1..1000.  Resolution is a pure read of the staging store: it is a function
of the store and returns without modifying any table. -/
theorem batch_window_resolution (n : Nat) (_hn : 1 ≤ n) (db : DB) (f : Faults) :
    batchWindow n = ((n - 1) * 1000 + 1, n * 1000) ∧
    resolveBatchNumber db (some n) f = n ∧
    resolveBatchNumber db none f =
      get_last_processed_row f.lastRowQuery db.staging / 1000 + 1 ∧
    (f.lastRowQuery = true → get_last_processed_row f.lastRowQuery db.staging = 0) ∧
    (db.staging = [] → get_last_processed_row f.lastRowQuery db.staging = 0) ∧
    (db.staging = [] →
      resolveBatchNumber db none f = 1 ∧
      batchWindow (resolveBatchNumber db none f) = (1, 1000)) := by
  refine ⟨rfl, rfl, rfl, ?_, ?_, ?_⟩
  · intro h
    simp [get_last_processed_row, h]
  · intro h
    cases hf : f.lastRowQuery <;> simp [get_last_processed_row, h, hf]
  · intro h
    cases hf : f.lastRowQuery <;>
      simp [resolveBatchNumber, get_last_processed_row, h, hf, batchWindow, batchSize]

/-- Witness for `batch_window_resolution` at `n = 3` on the empty
warehouse. -/
theorem batch_window_resolution_witness :
    1 ≤ 3 ∧
    (batchWindow 3 = ((3 - 1) * 1000 + 1, 3 * 1000) ∧
     resolveBatchNumber DB.empty (some 3) Faults.none = 3 ∧
     resolveBatchNumber DB.empty none Faults.none =
       get_last_processed_row Faults.none.lastRowQuery DB.empty.staging / 1000 + 1 ∧
     (Faults.none.lastRowQuery = true →
       get_last_processed_row Faults.none.lastRowQuery DB.empty.staging = 0) ∧
     (DB.empty.staging = [] →
       get_last_processed_row Faults.none.lastRowQuery DB.empty.staging = 0) ∧
     (DB.empty.staging = [] →
       resolveBatchNumber DB.empty none Faults.none = 1 ∧
       batchWindow (resolveBatchNumber DB.empty none Faults.none) = (1, 1000))) :=
  ⟨by norm_num, batch_window_resolution 3 (by norm_num) DB.empty Faults.none⟩

/-- **C5.** The segmentation pass assigns the customer segment as a pure,
idempotent function of cumulative spend, with the thresholds
VIP ≥ 10000 > HIGH_VALUE ≥ 5000 > MEDIUM_VALUE ≥ 1000 > LOW_VALUE > 0 ≥ NEW,
including the stated boundary values; re-applying the pass without a change
of spend changes nothing. -/
theorem segmentation_pure (spend : Rat) (c : CustomerAgg) (today : Int)
    (customers : Int → Option CustomerAgg) :
    (spend ≥ 10000 → segmentOfSpend spend = "VIP") ∧
    (5000 ≤ spend → spend < 10000 → segmentOfSpend spend = "HIGH_VALUE") ∧
    (1000 ≤ spend → spend < 5000 → segmentOfSpend spend = "MEDIUM_VALUE") ∧
    (0 < spend → spend < 1000 → segmentOfSpend spend = "LOW_VALUE") ∧
    (spend ≤ 0 → segmentOfSpend spend = "NEW") ∧
    segmentOfSpend (999.99 : Rat) = "LOW_VALUE" ∧
    segmentOfSpend (1000.00 : Rat) = "MEDIUM_VALUE" ∧
    segmentOfSpend (4999.99 : Rat) = "MEDIUM_VALUE" ∧
    segmentOfSpend (5000.00 : Rat) = "HIGH_VALUE" ∧
    segmentOfSpend (9999.99 : Rat) = "HIGH_VALUE" ∧
    segmentOfSpend (10000.00 : Rat) = "VIP" ∧
    segmentOfSpend 0 = "NEW" ∧
    (applySegment today c).customerSegment = segmentOfSpend c.totalAmountSpent ∧
    applySegment today (applySegment today c) = applySegment today c ∧
    segmentPass today (segmentPass today customers) = segmentPass today customers := by
  have happ : ∀ a : CustomerAgg, applySegment today (applySegment today a) = applySegment today a := by
    intro a
    simp [applySegment]
  refine ⟨?_, ?_, ?_, ?_, ?_,
    by simp only [segmentOfSpend]; norm_num,
    by simp only [segmentOfSpend]; norm_num,
    by simp only [segmentOfSpend]; norm_num,
    by simp only [segmentOfSpend]; norm_num,
    by simp only [segmentOfSpend]; norm_num,
    by simp only [segmentOfSpend]; norm_num,
    by simp only [segmentOfSpend]; norm_num, rfl, happ c, ?_⟩
  · intro h
    simp [segmentOfSpend, h]
  · intro h1 h2
    rw [segmentOfSpend, if_neg (by linarith), if_pos (by linarith)]
  · intro h1 h2
    rw [segmentOfSpend, if_neg (by linarith), if_neg (by linarith), if_pos (by linarith)]
  · intro h1 h2
    rw [segmentOfSpend, if_neg (by linarith), if_neg (by linarith), if_neg (by linarith),
      if_pos (by linarith)]
  · intro h
    rw [segmentOfSpend, if_neg (by linarith), if_neg (by linarith), if_neg (by linarith),
      if_neg (by linarith)]
  · funext k
    cases h : customers k with
    | none => simp [segmentPass, h]
    | some a =>
      by_cases hu : a.updatedAt ≥ today
      · simp [segmentPass, h, hu, happ a,
          show (applySegment today a).updatedAt = a.updatedAt from rfl]
      · simp [segmentPass, h, hu]

/-- Witness for `segmentation_pure`: the VIP branch applied at spend
10000. -/
theorem segmentation_pure_witness :
    (10000 : Rat) ≥ 10000 ∧ segmentOfSpend 10000 = "VIP" :=
  ⟨by norm_num,
    (segmentation_pure 10000 sampleCustomer 0 (fun _ => none)).1 (by norm_num)⟩

/-- The prior aggregate of `priorProduct` stores average unit price 1. -/
theorem priorProduct_avg : priorProduct.averageUnitPrice = some 1 := by
  norm_num [priorProduct, productInsert, productAvgUnitPrice, productPosRows,
    productSourceRows, mkStaged, oneRaw, likeBatch_tag, sqlAvg]

/-- The batch `threeFourRows` has average unit price 4 for product `P`. -/
theorem threeFour_avg : productAvgUnitPrice threeFourRows "P" = some 4 := by
  norm_num [productAvgUnitPrice, productPosRows, productSourceRows, threeFourRows,
    mkStaged, fourRaw, likeBatch_tag, sqlAvg]

/-- The batch `threeFourRows` has average order value 4 for customer 1. -/
theorem threeFour_custAvg : customerAvgOrderValue threeFourRows 1 = some 4 := by
  norm_num [customerAvgOrderValue, customerSourceRows, threeFourRows,
    mkStaged, fourRaw, likeBatch_tag, sqlAvg]

/-- **C8.** Merging a batch delta into an existing product or customer
aggregate recomputes the stored average as the plain mean of the prior
average and the batch average — not a count-weighted mean — while revenue,
quantity, orders, items and amount merge additively.  The final clauses
exhibit the approximation on concrete data: one prior row at price 1 and a
batch of three rows at price 4 merge to average 5/2, not the weighted
13/4. -/
theorem mean_of_means_average_merge (now : Int) (t : ProductAgg) (tc : CustomerAgg)
    (staging : List StagedRecord) (p : String) (c : Int) (a b x y : Rat)
    (ht : t.averageUnitPrice = some a) (hs : productAvgUnitPrice staging p = some b)
    (htc : tc.averageOrderValue = some x) (hsc : customerAvgOrderValue staging c = some y) :
    (productUpdate t staging p).averageUnitPrice = some ((a + b) / 2) ∧
    (productUpdate t staging p).totalRevenue =
      t.totalRevenue + productNewRevenue staging p ∧
    (productUpdate t staging p).totalQuantitySold =
      t.totalQuantitySold + productNewQuantitySold staging p ∧
    (productUpdate t staging p).uniqueCustomers =
      t.uniqueCustomers + productNewUniqueCustomers staging p ∧
    (customerUpdate now tc staging c).averageOrderValue = some ((x + y) / 2) ∧
    (customerUpdate now tc staging c).totalOrders =
      tc.totalOrders + customerNewOrders staging c ∧
    (customerUpdate now tc staging c).totalItemsPurchased =
      tc.totalItemsPurchased + customerNewItems staging c ∧
    (customerUpdate now tc staging c).totalAmountSpent =
      tc.totalAmountSpent + customerNewAmount staging c ∧
    (productUpdate priorProduct threeFourRows "P").averageUnitPrice = some (5 / 2) ∧
    ((5 : Rat) / 2) ≠ (1 * 1 + 4 * 3) / (1 + 3) := by
  refine ⟨?_, rfl, rfl, rfl, ?_, rfl, rfl, rfl, ?_, by norm_num⟩
  · simp [productUpdate, ht, hs, sqlAdd, sqlHalf]
  · simp [customerUpdate, htc, hsc, sqlAdd, sqlHalf]
  · rw [show (productUpdate priorProduct threeFourRows "P").averageUnitPrice =
      sqlHalf (sqlAdd priorProduct.averageUnitPrice (productAvgUnitPrice threeFourRows "P"))
      from rfl, priorProduct_avg, threeFour_avg]
    norm_num [sqlAdd, sqlHalf]

/-- Witness for `mean_of_means_average_merge` on `priorProduct`,
`sampleCustomer` and the three-row batch `threeFourRows`. -/
theorem mean_of_means_average_merge_witness :
    priorProduct.averageUnitPrice = some 1 ∧
    productAvgUnitPrice threeFourRows "P" = some 4 ∧
    sampleCustomer.averageOrderValue = some 2 ∧
    customerAvgOrderValue threeFourRows 1 = some 4 ∧
    (productUpdate priorProduct threeFourRows "P").averageUnitPrice =
      some ((1 + 4) / 2) :=
  ⟨priorProduct_avg, threeFour_avg, rfl, threeFour_custAvg,
    (mean_of_means_average_merge 0 priorProduct sampleCustomer threeFourRows "P" 1
      1 4 2 4 priorProduct_avg threeFour_avg rfl threeFour_custAvg).1⟩

/-! ### Decimal rendering of ordinals: `Nat.repr` facts -/

/-- `decDigits` never produces the empty list. -/
theorem decDigits_ne_nil (n : Nat) : decDigits n ≠ [] := by
  rw [decDigits]
  split <;> simp

/-- `Nat.toDigitsCore` with sufficient fuel agrees with `decDigits`. -/
theorem toDigitsCore_eq_decDigits (fuel : Nat) :
    ∀ (n : Nat) (ds : List Char), n < fuel →
      Nat.toDigitsCore 10 fuel n ds = decDigits n ++ ds := by
  induction fuel with
  | zero => omega
  | succ f ih =>
    intro n ds h
    by_cases h0 : n / 10 = 0
    · rw [decDigits]
      simp [Nat.toDigitsCore, h0]
    · rw [decDigits]
      simp only [Nat.toDigitsCore, h0, if_neg h0, if_neg (by omega : ¬n / 10 = 0)]
      rw [ih (n / 10) _ (by omega)]
      simp

/-- The character list behind `Nat.repr` is `decDigits`. -/
theorem repr_data_eq_decDigits (n : Nat) : (Nat.repr n).data = decDigits n := by
  have h1 : Nat.repr n = (Nat.toDigits 10 n).asString := rfl
  rw [h1, Nat.toDigits, toDigitsCore_eq_decDigits (n + 1) n [] (Nat.lt_succ_self n)]
  simp [List.asString]

/-- Digit characters are never an underscore. -/
theorem digitChar_ne_underscore (m : Nat) (h : m < 10) : Nat.digitChar m ≠ '_' := by
  interval_cases m <;> decide

/-- `Nat.digitChar` is injective below 10. -/
theorem digitChar_inj (a b : Nat) (ha : a < 10) (hb : b < 10)
    (h : Nat.digitChar a = Nat.digitChar b) : a = b := by
  revert h
  interval_cases a <;> interval_cases b <;> decide

/-- No underscore occurs among the decimal digits of an ordinal. -/
theorem underscore_not_mem_decDigits (n : Nat) : '_' ∉ decDigits n := by
  induction n using Nat.strong_induction_on with
  | _ n ih =>
    rw [decDigits]
    by_cases h0 : n / 10 = 0
    · simp only [if_pos h0, List.mem_singleton]
      exact fun h => digitChar_ne_underscore (n % 10) (Nat.mod_lt _ (by norm_num)) h.symm
    · simp only [if_neg h0, List.mem_append, List.mem_singleton]
      rintro (h | h)
      · exact ih (n / 10) (by omega) h
      · exact digitChar_ne_underscore (n % 10) (Nat.mod_lt _ (by norm_num)) h.symm

/-- One-step unfolding of `decDigits`. -/
theorem decDigits_eq (n : Nat) :
    decDigits n = if n / 10 = 0 then [Nat.digitChar (n % 10)]
      else decDigits (n / 10) ++ [Nat.digitChar (n % 10)] := by
  rw [decDigits]

/-- `decDigits` is injective. -/
theorem decDigits_inj (a : Nat) : ∀ b, decDigits a = decDigits b → a = b := by
  induction a using Nat.strong_induction_on with
  | _ a ih =>
    intro b h
    rw [decDigits_eq a, decDigits_eq b] at h
    by_cases ha : a / 10 = 0 <;> by_cases hb : b / 10 = 0
    · rw [if_pos ha, if_pos hb] at h
      have := digitChar_inj (a % 10) (b % 10) (Nat.mod_lt _ (by norm_num))
        (Nat.mod_lt _ (by norm_num)) (by simpa using h)
      omega
    · rw [if_pos ha, if_neg hb] at h
      rcases hcons : decDigits (b / 10) with _ | ⟨x, xs⟩
      · exact absurd hcons (decDigits_ne_nil _)
      · rw [hcons] at h
        simp at h
    · rw [if_neg ha, if_pos hb] at h
      rcases hcons : decDigits (a / 10) with _ | ⟨x, xs⟩
      · exact absurd hcons (decDigits_ne_nil _)
      · rw [hcons] at h
        simp at h
    · rw [if_neg ha, if_neg hb] at h
      obtain ⟨h1, h2⟩ := List.append_inj' h (by simp)
      have hmod := digitChar_inj (a % 10) (b % 10) (Nat.mod_lt _ (by norm_num))
        (Nat.mod_lt _ (by norm_num)) (by simpa using h2)
      have hdiv := ih (a / 10) (by omega) (b / 10) h1
      omega

/-- `Nat.repr` is injective. -/
theorem nat_repr_inj (a b : Nat) (h : Nat.repr a = Nat.repr b) : a = b :=
  decDigits_inj a b (by rw [← repr_data_eq_decDigits, ← repr_data_eq_decDigits, h])

/-! ### The synthetic key determines the ordinal -/

/-- `takeWhile` of a list of matching characters followed by a failing one
returns exactly the matching block. -/
theorem takeWhile_all_append (p : Char → Bool) (l r : List Char) (c : Char)
    (hl : ∀ x ∈ l, p x = true) (hc : p c = false) :
    (l ++ c :: r).takeWhile p = l := by
  induction l with
  | nil => simp [List.takeWhile_cons, hc]
  | cons a as ihl =>
    have ha := hl a (by simp)
    simp only [List.cons_append, List.takeWhile_cons, ha, if_pos]
    rw [ihl fun x hx => hl x (by simp [hx])]

/-- Two underscore-separated strings with underscore-free tails agree on
the tail after the last separator. -/
theorem tail_after_last_sep {a b t1 t2 : List Char} (h1 : '_' ∉ t1) (h2 : '_' ∉ t2)
    (h : a ++ '_' :: t1 = b ++ '_' :: t2) : t1 = t2 := by
  have hrev := congrArg List.reverse h
  simp only [List.reverse_append, List.reverse_cons, List.append_assoc,
    List.singleton_append] at hrev
  have e1 : (t1.reverse ++ '_' :: a.reverse).takeWhile (fun c => c != '_') = t1.reverse :=
    takeWhile_all_append _ _ _ _
      (fun x hx => by
        have : x ∈ t1 := List.mem_reverse.mp hx
        simp only [bne_iff_ne, ne_eq, decide_eq_true_eq]
        exact fun hx' => h1 (hx' ▸ this))
      (by decide)
  have e2 : (t2.reverse ++ '_' :: b.reverse).takeWhile (fun c => c != '_') = t2.reverse :=
    takeWhile_all_append _ _ _ _
      (fun x hx => by
        have : x ∈ t2 := List.mem_reverse.mp hx
        simp only [bne_iff_ne, ne_eq, decide_eq_true_eq]
        exact fun hx' => h2 (hx' ▸ this))
      (by decide)
  have := e1.symm.trans (by rw [hrev, e2])
  exact List.reverse_injective this

/-- Equal synthetic keys force equal source-row ordinals: the ordinal is
the digit block after the key's last underscore. -/
theorem transactionKey_ord_inj (r1 r2 : StagedRecord)
    (h : transactionKey r1 = transactionKey r2) :
    r1.rowNumberInFile = r2.rowNumberInFile := by
  have hts : ∀ n : Nat, (toString n : String) = Nat.repr n := fun _ => rfl
  have hd := congrArg String.data h
  simp only [transactionKey, String.data_append, hts] at hd
  have hd' : (r1.invoiceNo.data ++ '_' :: r1.stockCode.data) ++
        '_' :: (Nat.repr r1.rowNumberInFile).data =
      (r2.invoiceNo.data ++ '_' :: r2.stockCode.data) ++
        '_' :: (Nat.repr r2.rowNumberInFile).data := by
    simpa [List.append_assoc] using hd
  have htail := tail_after_last_sep
    (by rw [repr_data_eq_decDigits]; exact underscore_not_mem_decDigits _)
    (by rw [repr_data_eq_decDigits]; exact underscore_not_mem_decDigits _) hd'
  exact nat_repr_inj _ _ (String.ext htail)

/-! ### Staging dedup: idempotence and key uniqueness -/

/-- Ordinals assigned by `withOrdinals` start at `start`. -/
theorem withOrdinals_snd_ge (l : List RawRecord) :
    ∀ (s : Nat) (p : RawRecord × Nat), p ∈ withOrdinals s l → s ≤ p.2 := by
  induction l with
  | nil => intro s p hp; simp [withOrdinals] at hp
  | cons x xs ih =>
    intro s p hp
    rcases (by simpa [withOrdinals] using hp : p = (x, s) ∨ p ∈ withOrdinals (s + 1) xs) with
      h | h
    · simp [h]
    · exact Nat.le_of_succ_le (ih (s + 1) p h)

/-- Ordinals assigned by `withOrdinals` stay below `start + length`. -/
theorem withOrdinals_snd_lt (l : List RawRecord) :
    ∀ (s : Nat) (p : RawRecord × Nat), p ∈ withOrdinals s l → p.2 < s + l.length := by
  induction l with
  | nil => intro s p hp; simp [withOrdinals] at hp
  | cons x xs ih =>
    intro s p hp
    rcases (by simpa [withOrdinals] using hp : p = (x, s) ∨ p ∈ withOrdinals (s + 1) xs) with
      h | h
    · simp [h]
    · have := ih (s + 1) p h
      simp only [List.length_cons]
      omega

/-- The ordinals assigned by `withOrdinals` are pairwise distinct. -/
theorem withOrdinals_snd_nodup (l : List RawRecord) :
    ∀ s : Nat, ((withOrdinals s l).map (·.2)).Nodup := by
  induction l with
  | nil => intro s; simp [withOrdinals]
  | cons x xs ih =>
    intro s
    simp only [withOrdinals, List.map_cons, List.nodup_cons]
    refine ⟨?_, ih (s + 1)⟩
    intro hmem
    obtain ⟨p, hp, hps⟩ := List.mem_map.mp hmem
    have := withOrdinals_snd_ge xs (s + 1) p hp
    omega

/-- Distinctness transfers along a map whose equalities refine another
distinct projection. -/
theorem nodup_map_of_proj {α β γ : Type} (f : α → β) (g : α → γ) (l : List α)
    (h : (l.map g).Nodup) (hfg : ∀ a b, f a = f b → g a = g b) : (l.map f).Nodup := by
  have h' := (List.pairwise_map).mp h
  exact (List.pairwise_map).mpr (h'.imp fun hab hf => hab (hfg _ _ hf))

/-- Within one batch the candidates carry pairwise distinct synthetic keys:
their ordinals are distinct and the key determines the ordinal. -/
theorem batchCandidates_key_nodup (b s : Nat) (cleaned : List RawRecord) :
    ((batchCandidates b s cleaned).map transactionKey).Nodup := by
  unfold batchCandidates
  rw [List.map_map]
  exact nodup_map_of_proj _ (·.2) _ (withOrdinals_snd_nodup cleaned s)
    fun p q hpq => transactionKey_ord_inj _ _ hpq

/-- `List.contains` on key lists agrees with membership. -/
theorem contains_key_iff (l : List String) (a : String) : l.contains a = true ↔ a ∈ l :=
  List.elem_iff

/-- Appending the dedup-filtered candidates preserves distinctness of the
staged synthetic keys. -/
theorem dedupNew_key_nodup (st cands : List StagedRecord)
    (hst : (st.map transactionKey).Nodup) (hc : (cands.map transactionKey).Nodup) :
    ((st ++ dedupNew st cands).map transactionKey).Nodup := by
  rw [List.map_append, List.nodup_append]
  refine ⟨hst, ?_, ?_⟩
  · exact hc.sublist ((List.filter_sublist _).map _)
  · intro k hk1 hk2
    obtain ⟨c, hc_mem, rfl⟩ := List.mem_map.mp hk2
    rcases List.mem_filter.mp hc_mem with ⟨_, hpred⟩
    rw [Bool.not_eq_true'] at hpred
    have hcontra : (st.map transactionKey).contains (transactionKey c) = true :=
      (contains_key_iff _ _).mpr hk1
    rw [hpred] at hcontra
    cases hcontra

/-- Loading any batch preserves distinctness of the staged synthetic
keys. -/
theorem load_key_nodup (csv : Except String (List RawRecord)) (b s e : Nat)
    (st : List StagedRecord) (h : (st.map transactionKey).Nodup) :
    (((load_batch_to_staging csv b s e st).2).map transactionKey).Nodup := by
  cases csv with
  | error m => exact h
  | ok file =>
    simp only [load_batch_to_staging]
    split
    · exact h
    · split
      · exact h
      · split
        · exact h
        · exact dedupNew_key_nodup st _ h (batchCandidates_key_nodup b s _)

/-- The possible outcomes of a staging load from a readable extract. -/
theorem load_ok_cases (file : List RawRecord) (b s e : Nat) (st : List StagedRecord) :
    (load_batch_to_staging (.ok file) b s e st = (0, st)) ∨
    ((batchWindowRows file s e).isEmpty = false ∧
     hasUnparseableDate (batchWindowRows file s e) = false ∧
     dedupNew st (batchCandidates b s ((batchWindowRows file s e).filter keepRecord)) ≠ [] ∧
     load_batch_to_staging (.ok file) b s e st =
       ((dedupNew st (batchCandidates b s ((batchWindowRows file s e).filter keepRecord))).length,
        st ++ dedupNew st (batchCandidates b s ((batchWindowRows file s e).filter keepRecord)))) := by
  simp only [load_batch_to_staging]
  by_cases hw : (batchWindowRows file s e).isEmpty
  · left
    simp [hw]
  · by_cases hd : hasUnparseableDate (batchWindowRows file s e)
    · left
      simp [hw, hd]
    · by_cases hn : (dedupNew st (batchCandidates b s
        ((batchWindowRows file s e).filter keepRecord))).isEmpty
      · left
        simp [hw, hd, hn]
      · right
        refine ⟨by simpa using hw, by simpa using hd, ?_, by simp [hw, hd, hn]⟩
        intro hnil
        rw [hnil] at hn
        exact hn rfl

/-- Re-running a staging load right after it ran inserts nothing and leaves
the staging table unchanged. -/
theorem load_rerun (csv : Except String (List RawRecord)) (b s e : Nat)
    (st : List StagedRecord) :
    load_batch_to_staging csv b s e ((load_batch_to_staging csv b s e st).2) =
      (0, (load_batch_to_staging csv b s e st).2) := by
  cases csv with
  | error m => rfl
  | ok file =>
    rcases load_ok_cases file b s e st with h | ⟨hw, hd, _hn, h⟩
    · rw [h]
      exact h
    · rw [h]
      have hempty : dedupNew (st ++ dedupNew st (batchCandidates b s
          ((batchWindowRows file s e).filter keepRecord)))
          (batchCandidates b s ((batchWindowRows file s e).filter keepRecord)) = [] := by
        apply List.filter_eq_nil_iff.mpr
        intro c hc
        have hmem : transactionKey c ∈
            ((st ++ dedupNew st (batchCandidates b s
              ((batchWindowRows file s e).filter keepRecord))).map transactionKey) := by
          rw [List.map_append, List.mem_append]
          by_cases hst : transactionKey c ∈ st.map transactionKey
          · exact Or.inl hst
          · right
            refine List.mem_map.mpr ⟨c, List.mem_filter.mpr ⟨hc, ?_⟩, rfl⟩
            have hfalse : (st.map transactionKey).contains (transactionKey c) = false :=
              Bool.eq_false_iff.mpr fun htrue => hst ((contains_key_iff _ _).mp htrue)
            rw [hfalse]
            rfl
        intro habs
        rw [Bool.not_eq_true'] at habs
        have := (contains_key_iff _ _).mpr hmem
        rw [habs] at this
        cases this
      simp [load_batch_to_staging, hw, hd, hempty]

/-- **C3.** Re-running `load_batch_to_staging` on an already-loaded batch
inserts zero rows and leaves the staging table unchanged; every candidate
whose synthetic key already exists among previously staged records is
filtered out before writing; and loading preserves the invariant that the
staging store never contains two records with the same synthetic key. -/
theorem staging_dedup_idempotent (csv : Except String (List RawRecord)) (b s e : Nat)
    (st : List StagedRecord) (hkeys : (st.map transactionKey).Nodup) :
    (load_batch_to_staging csv b s e ((load_batch_to_staging csv b s e st).2)).1 = 0 ∧
    (load_batch_to_staging csv b s e ((load_batch_to_staging csv b s e st).2)).2 =
      (load_batch_to_staging csv b s e st).2 ∧
    (∀ (cands : List StagedRecord) (c : StagedRecord), c ∈ cands →
      transactionKey c ∈ st.map transactionKey → c ∉ dedupNew st cands) ∧
    (((load_batch_to_staging csv b s e st).2).map transactionKey).Nodup := by
  refine ⟨?_, ?_, ?_, load_key_nodup csv b s e st hkeys⟩
  · rw [load_rerun]
  · rw [load_rerun]
  · intro cands c _ hmem hfil
    rcases List.mem_filter.mp hfil with ⟨_, hpred⟩
    rw [Bool.not_eq_true'] at hpred
    have := (contains_key_iff _ _).mpr hmem
    rw [hpred] at this
    cases this

/-- Witness for `staging_dedup_idempotent`: batch 1 of a one-record extract
loaded into the empty staging store. -/
theorem staging_dedup_idempotent_witness :
    (([] : List StagedRecord).map transactionKey).Nodup ∧
    ((load_batch_to_staging (.ok [goodRaw]) 1 1 1000
        ((load_batch_to_staging (.ok [goodRaw]) 1 1 1000 []).2)).1 = 0 ∧
     (load_batch_to_staging (.ok [goodRaw]) 1 1 1000
        ((load_batch_to_staging (.ok [goodRaw]) 1 1 1000 []).2)).2 =
       (load_batch_to_staging (.ok [goodRaw]) 1 1 1000 []).2 ∧
     (∀ (cands : List StagedRecord) (c : StagedRecord), c ∈ cands →
       transactionKey c ∈ ([] : List StagedRecord).map transactionKey →
       c ∉ dedupNew [] cands) ∧
     (((load_batch_to_staging (.ok [goodRaw]) 1 1 1000 []).2).map transactionKey).Nodup) :=
  ⟨by simp, staging_dedup_idempotent (.ok [goodRaw]) 1 1 1000 [] (by simp)⟩

/-! ### Execution-log machinery -/

/-- A map that fixes every member of a list leaves it unchanged. -/
theorem map_eq_self_of {α : Type} (l : List α) (f : α → α) (h : ∀ x ∈ l, f x = x) :
    l.map f = l := by
  induction l with
  | nil => rfl
  | cons x xs ih =>
    rw [List.map_cons, h x (by simp), ih fun y hy => h y (by simp [hy])]

/-- Folding `max` over values bounded by the seed returns the seed. -/
theorem foldr_max_le (xs : List Nat) (c : Nat) (h : ∀ x ∈ xs, x ≤ c) :
    xs.foldr max c = c := by
  induction xs with
  | nil => rfl
  | cons x xs ih =>
    rw [List.foldr_cons, ih fun y hy => h y (by simp [hy])]
    exact Nat.max_eq_right (h x (by simp)) ▸ by
      have := h x (by simp)
      omega

/-- The latest `START_TIME` of a batch after appending a fresh entry is the
fresh entry's. -/
theorem maxStartTime_append (L : List LogEntry) (R : LogEntry) (b : Nat)
    (hR : R.executionType = b)
    (hL : ∀ en ∈ L, en.executionType = b → en.startTime ≤ R.startTime) :
    maxStartTime (L ++ [R]) b = R.startTime := by
  unfold maxStartTime
  rw [List.filter_append, List.map_append, List.foldr_append]
  have h1 : List.filter (fun e => e.executionType == b) [R] = [R] := by
    simp [List.filter_cons, hR]
  rw [h1]
  simp only [List.map_cons, List.map_nil, List.foldr_cons, List.foldr_nil]
  rw [Nat.max_zero]
  apply foldr_max_le
  intro x hx
  obtain ⟨en, hen, rfl⟩ := List.mem_map.mp hx
  rcases List.mem_filter.mp hen with ⟨hmem, hbeq⟩
  exact hL en hmem (by simpa using hbeq)

/-- `log_batch_start` only touches the log and the clock. -/
theorem log_batch_start_staging (db : DB) (b s e : Nat) :
    (log_batch_start db b s e).staging = db.staging := rfl

/-- `log_batch_end` only touches the log. -/
theorem log_batch_end_staging (db : DB) (b : Nat) (st : String) (r : Nat)
    (err : Option String) : (log_batch_end db b st r err).staging = db.staging := rfl

/-- Closing the freshest RUNNING entry of a batch updates exactly that
entry: older entries of any status and any batch are untouched. -/
theorem log_batch_end_fresh (db : DB) (L : List LogEntry) (R : LogEntry) (b : Nat)
    (status : String) (rows : Nat) (err : Option String)
    (hlog : db.log = L ++ [R])
    (hR : R.executionType = b) (hRs : R.status = "RUNNING")
    (hL : ∀ en ∈ L, en.executionType = b → en.startTime < R.startTime) :
    (log_batch_end db b status rows err).log = L ++ [{ R with
      status := status
      rowsInserted := rows
      errorMessage := match err with | some m => some m | none => R.errorMessage
      endTime := some db.clock }] := by
  unfold log_batch_end
  simp only [hlog]
  rw [maxStartTime_append L R b hR fun en he hb => Nat.le_of_lt (hL en he hb)]
  rw [List.map_append]
  congr 1
  · apply map_eq_self_of
    intro x hx
    by_cases hxb : x.executionType = b
    · have hne : x.startTime ≠ R.startTime := Nat.ne_of_lt (hL x hx hxb)
      simp [hne]
    · simp [hxb]
  · simp [hR, hRs]

/-- A load that reports zero rows leaves the staging table unchanged. -/
theorem load_zero (csv : Except String (List RawRecord)) (b s e : Nat)
    (st : List StagedRecord)
    (h : (load_batch_to_staging csv b s e st).1 = 0) :
    (load_batch_to_staging csv b s e st).2 = st := by
  cases csv with
  | error m => rfl
  | ok file =>
    rcases load_ok_cases file b s e st with hc | ⟨_, _, hnew, hc⟩
    · rw [hc]
    · rw [hc] at h
      exact absurd (List.length_eq_zero.mp h) hnew

/-- Orchestrator outcome when the staging load reports zero rows: the run
returns `False`, exactly one new log entry appears — COMPLETED, zero rows
inserted, message `No new data to load` — and no table is modified. -/
theorem run_zero_loaded (db : DB) (csv : Except String (List RawRecord)) (n : Nat)
    (f : Faults)
    (hfresh : ∀ en ∈ db.log, en.startTime < db.clock)
    (hzero : (load_batch_to_staging csv n (batchWindow n).1 (batchWindow n).2
      db.staging).1 = 0) :
    (run_incremental_batch db csv (some n) f).1 = false ∧
    (run_incremental_batch db csv (some n) f).2.log = db.log ++
      [{ executionType := n
         status := "COMPLETED"
         rowsProcessed := (batchWindow n).2 - (batchWindow n).1 + 1
         rowsInserted := 0
         errorMessage := some "No new data to load"
         startTime := db.clock
         endTime := some (db.clock + 1) }] ∧
    (run_incremental_batch db csv (some n) f).2.staging = db.staging ∧
    (run_incremental_batch db csv (some n) f).2.products = db.products ∧
    (run_incremental_batch db csv (some n) f).2.customers = db.customers ∧
    (run_incremental_batch db csv (some n) f).2.countries = db.countries ∧
    (run_incremental_batch db csv (some n) f).2.facts = db.facts := by
  have hrun : run_incremental_batch db csv (some n) f =
      (false, log_batch_end
        { log_batch_start db n (batchWindow n).1 (batchWindow n).2 with
          staging := (load_batch_to_staging csv n (batchWindow n).1 (batchWindow n).2
            db.staging).2 }
        n "COMPLETED" 0 (some "No new data to load")) := by
    simp only [run_incremental_batch, resolveBatchNumber, log_batch_start_staging]
    simp [hzero]
  refine ⟨by rw [hrun], ?_, ?_, by rw [hrun]; rfl, by rw [hrun]; rfl, by rw [hrun]; rfl,
    by rw [hrun]; rfl⟩
  · rw [hrun]
    exact log_batch_end_fresh _ db.log
      { executionType := n
        status := "RUNNING"
        rowsProcessed := (batchWindow n).2 - (batchWindow n).1 + 1
        rowsInserted := 0
        errorMessage := none
        startTime := db.clock
        endTime := none }
      n _ _ _ rfl rfl rfl fun en he _ => hfresh en he
  · rw [hrun, log_batch_end_staging]
    exact load_zero csv n _ _ db.staging hzero

/-- **C7** (counterexample).  A batch whose window is empty loads zero
rows: the log entry reads COMPLETED with zero rows inserted, yet
`run_incremental_batch` returns `False` and `main` exits with code 1 — the
outcome is reported as a failure, not a success as the claim states. -/
theorem zero_rows_success_counterexample :
    (run_incremental_batch DB.empty (.ok []) (some 1) Faults.none).1 = false ∧
    mainExitCode (run_incremental_batch DB.empty (.ok []) (some 1) Faults.none).1 = 1 ∧
    ((run_incremental_batch DB.empty (.ok []) (some 1) Faults.none).2.log.map
      fun en => (en.status, en.rowsInserted)) = [("COMPLETED", 0)] := by
  refine ⟨rfl, rfl, rfl⟩

/-- **C7** (amended).  When the staging load writes zero rows the
orchestrator logs the attempt COMPLETED with `rows_inserted = 0` and the
message `No new data to load`, and runs neither dimension aggregation nor
fact publication — every dimension table and the fact table are unchanged —
but it reports the outcome as a failure: the run returns `False` and the
process exit code is 1, not 0. -/
theorem zero_rows_completed_log (db : DB) (csv : Except String (List RawRecord))
    (n : Nat) (f : Faults)
    (hfresh : ∀ en ∈ db.log, en.startTime < db.clock)
    (hzero : (load_batch_to_staging csv n (batchWindow n).1 (batchWindow n).2
      db.staging).1 = 0) :
    (run_incremental_batch db csv (some n) f).1 = false ∧
    mainExitCode (run_incremental_batch db csv (some n) f).1 = 1 ∧
    (run_incremental_batch db csv (some n) f).2.log = db.log ++
      [{ executionType := n
         status := "COMPLETED"
         rowsProcessed := (batchWindow n).2 - (batchWindow n).1 + 1
         rowsInserted := 0
         errorMessage := some "No new data to load"
         startTime := db.clock
         endTime := some (db.clock + 1) }] ∧
    (run_incremental_batch db csv (some n) f).2.staging = db.staging ∧
    (run_incremental_batch db csv (some n) f).2.products = db.products ∧
    (run_incremental_batch db csv (some n) f).2.customers = db.customers ∧
    (run_incremental_batch db csv (some n) f).2.countries = db.countries ∧
    (run_incremental_batch db csv (some n) f).2.facts = db.facts := by
  obtain ⟨h1, h2, h3, h4, h5, h6, h7⟩ := run_zero_loaded db csv n f hfresh hzero
  exact ⟨h1, by rw [h1]; rfl, h2, h3, h4, h5, h6, h7⟩

/-- Witness for `zero_rows_completed_log`: batch 1 of an empty extract on
the empty warehouse. -/
theorem zero_rows_completed_log_witness :
    (∀ en ∈ DB.empty.log, en.startTime < DB.empty.clock) ∧
    (load_batch_to_staging (.ok []) 1 (batchWindow 1).1 (batchWindow 1).2
      DB.empty.staging).1 = 0 ∧
    ((run_incremental_batch DB.empty (.ok []) (some 1) Faults.none).1 = false ∧
     mainExitCode (run_incremental_batch DB.empty (.ok []) (some 1) Faults.none).1 = 1 ∧
     (run_incremental_batch DB.empty (.ok []) (some 1) Faults.none).2.log =
       DB.empty.log ++
       [{ executionType := 1
          status := "COMPLETED"
          rowsProcessed := (batchWindow 1).2 - (batchWindow 1).1 + 1
          rowsInserted := 0
          errorMessage := some "No new data to load"
          startTime := DB.empty.clock
          endTime := some (DB.empty.clock + 1) }] ∧
     (run_incremental_batch DB.empty (.ok []) (some 1) Faults.none).2.staging =
       DB.empty.staging ∧
     (run_incremental_batch DB.empty (.ok []) (some 1) Faults.none).2.products =
       DB.empty.products ∧
     (run_incremental_batch DB.empty (.ok []) (some 1) Faults.none).2.customers =
       DB.empty.customers ∧
     (run_incremental_batch DB.empty (.ok []) (some 1) Faults.none).2.countries =
       DB.empty.countries ∧
     (run_incremental_batch DB.empty (.ok []) (some 1) Faults.none).2.facts =
       DB.empty.facts) :=
  ⟨by simp [DB.empty], by decide,
    zero_rows_completed_log DB.empty (.ok []) 1 Faults.none
      (by simp [DB.empty]) (by decide)⟩

/-- **C9.** If the staging-load step itself raises — the extract is
unreadable, or `pd.to_datetime` raises on an unparseable non-null
timestamp — `load_batch_to_staging` swallows the exception and returns 0,
and the orchestrator logs the attempt COMPLETED with `rows_inserted = 0`
and the message `No new data to load`; the number of FAILED entries in the
execution log does not change. -/
theorem load_crash_no_failed_entry (db : DB) (csv : Except String (List RawRecord))
    (n : Nat) (f : Faults)
    (hfresh : ∀ en ∈ db.log, en.startTime < db.clock)
    (hcrash : (∃ msg, csv = .error msg) ∨
      (∃ file, csv = .ok file ∧
        hasUnparseableDate (batchWindowRows file (batchWindow n).1 (batchWindow n).2)
          = true)) :
    (load_batch_to_staging csv n (batchWindow n).1 (batchWindow n).2 db.staging).1 = 0 ∧
    (run_incremental_batch db csv (some n) f).1 = false ∧
    (run_incremental_batch db csv (some n) f).2.log = db.log ++
      [{ executionType := n
         status := "COMPLETED"
         rowsProcessed := (batchWindow n).2 - (batchWindow n).1 + 1
         rowsInserted := 0
         errorMessage := some "No new data to load"
         startTime := db.clock
         endTime := some (db.clock + 1) }] ∧
    ((run_incremental_batch db csv (some n) f).2.log.countP
      fun en => en.status == "FAILED") =
      db.log.countP (fun en => en.status == "FAILED") := by
  have hzero : (load_batch_to_staging csv n (batchWindow n).1 (batchWindow n).2
      db.staging).1 = 0 := by
    rcases hcrash with ⟨msg, rfl⟩ | ⟨file, rfl, hbad⟩
    · rfl
    · have hne : (batchWindowRows file (batchWindow n).1 (batchWindow n).2).isEmpty
          = false := by
        cases hl : batchWindowRows file (batchWindow n).1 (batchWindow n).2 with
        | nil => rw [hl] at hbad; simp [hasUnparseableDate] at hbad
        | cons x xs => rfl
      simp [load_batch_to_staging, hne, hbad]
  obtain ⟨h1, h2, _, _, _, _, _⟩ := run_zero_loaded db csv n f hfresh hzero
  refine ⟨hzero, h1, h2, ?_⟩
  rw [h2, List.countP_append]
  simp

/-- Witness for `load_crash_no_failed_entry`: an unreadable extract on the
empty warehouse. -/
theorem load_crash_no_failed_entry_witness :
    (∀ en ∈ DB.empty.log, en.startTime < DB.empty.clock) ∧
    ((∃ msg, (Except.error "read error" : Except String (List RawRecord))
        = .error msg) ∨
      (∃ file, (Except.error "read error" : Except String (List RawRecord))
        = .ok file ∧
        hasUnparseableDate (batchWindowRows file (batchWindow 1).1 (batchWindow 1).2)
          = true)) ∧
    ((load_batch_to_staging (.error "read error") 1 (batchWindow 1).1 (batchWindow 1).2
        DB.empty.staging).1 = 0 ∧
     (run_incremental_batch DB.empty (.error "read error") (some 1) Faults.none).1
        = false ∧
     (run_incremental_batch DB.empty (.error "read error") (some 1) Faults.none).2.log =
       DB.empty.log ++
       [{ executionType := 1
          status := "COMPLETED"
          rowsProcessed := (batchWindow 1).2 - (batchWindow 1).1 + 1
          rowsInserted := 0
          errorMessage := some "No new data to load"
          startTime := DB.empty.clock
          endTime := some (DB.empty.clock + 1) }] ∧
     ((run_incremental_batch DB.empty (.error "read error") (some 1)
        Faults.none).2.log.countP fun en => en.status == "FAILED") =
       DB.empty.log.countP (fun en => en.status == "FAILED")) :=
  ⟨by simp [DB.empty], Or.inl ⟨"read error", rfl⟩,
    load_crash_no_failed_entry DB.empty (.error "read error") 1 Faults.none
      (by simp [DB.empty]) (Or.inl ⟨"read error", rfl⟩)⟩

/-- `update_dimensions_incremental` touches no log, staging, fact or clock
state. -/
theorem update_dimensions_log (db : DB) :
    (update_dimensions_incremental db).log = db.log := rfl

/-- **C2** (counterexample).  One staged row followed by a simulated
aggregation failure: the FAILED entry records `ROWS_INSERTED = 0` although
one row was actually staged before the failure, so the entry does not
carry the actually-staged count. -/
theorem failed_rows_inserted_counterexample :
    ((run_incremental_batch DB.empty (.ok [goodRaw]) (some 1) dimFault).2.log.map
      fun en => (en.status, en.rowsInserted)) = [("FAILED", 0)] ∧
    (run_incremental_batch DB.empty (.ok [goodRaw]) (some 1) dimFault).2.staging.length
      = 1 ∧
    ((run_incremental_batch DB.empty (.ok [goodRaw]) (some 1) dimFault).2.log.map
      fun en => en.rowsInserted) ≠
      [(run_incremental_batch DB.empty (.ok [goodRaw]) (some 1)
        dimFault).2.staging.length] :=
  ⟨rfl, rfl, by decide⟩

/-- **C2** (amended).  A failure raised during dimension aggregation or
fact publication leaves exactly one new execution-log entry for the
attempt, in FAILED state with the error message — but with
`ROWS_INSERTED = 0`, not the actually-staged count — while the staging
rows written before the failure remain durable: the staging table equals
the old table plus the rows the load inserted, none rolled back. -/
theorem failed_attempt_log (db : DB) (csv : Except String (List RawRecord))
    (n : Nat) (f : Faults)
    (hf : f.dimensions = true ∨ (f.dimensions = false ∧ f.factAppend = true))
    (hfresh : ∀ en ∈ db.log, en.startTime < db.clock)
    (hload : (load_batch_to_staging csv n (batchWindow n).1 (batchWindow n).2
      db.staging).1 ≠ 0) :
    (run_incremental_batch db csv (some n) f).1 = false ∧
    (∃ msg, (run_incremental_batch db csv (some n) f).2.log = db.log ++
      [{ executionType := n
         status := "FAILED"
         rowsProcessed := (batchWindow n).2 - (batchWindow n).1 + 1
         rowsInserted := 0
         errorMessage := some msg
         startTime := db.clock
         endTime := some (db.clock + 1) }]) ∧
    (run_incremental_batch db csv (some n) f).2.staging =
      (load_batch_to_staging csv n (batchWindow n).1 (batchWindow n).2 db.staging).2 ∧
    (∃ newRows, newRows ≠ [] ∧
      (load_batch_to_staging csv n (batchWindow n).1 (batchWindow n).2 db.staging).2 =
        db.staging ++ newRows ∧
      newRows.length =
        (load_batch_to_staging csv n (batchWindow n).1 (batchWindow n).2 db.staging).1) := by
  obtain ⟨file, rfl⟩ : ∃ file, csv = .ok file := by
    cases csv with
    | error m => exact absurd rfl hload
    | ok file => exact ⟨file, rfl⟩
  rcases load_ok_cases file n (batchWindow n).1 (batchWindow n).2 db.staging with
    hc | ⟨hw, hd, hnew, hc⟩
  · rw [hc] at hload
    exact absurd rfl hload
  · have hbeq : ((dedupNew db.staging (batchCandidates n (batchWindow n).1
        ((batchWindowRows file (batchWindow n).1 (batchWindow n).2).filter
          keepRecord))).length == 0) = false :=
      Bool.eq_false_iff.mpr fun ht => hnew (List.length_eq_zero.mp (by simpa using ht))
    rcases hf with hfd | ⟨hfd, hff⟩
    · have hrun : run_incremental_batch db (.ok file) (some n) f =
          (false, log_batch_end
            { log_batch_start db n (batchWindow n).1 (batchWindow n).2 with
              staging := (load_batch_to_staging (.ok file) n (batchWindow n).1
                (batchWindow n).2 db.staging).2 }
            n "FAILED" 0 (some "Error updating dimensions")) := by
        simp only [run_incremental_batch, resolveBatchNumber, log_batch_start_staging]
        rw [hc]
        simp [hbeq, hfd]
      refine ⟨by rw [hrun], ⟨"Error updating dimensions", ?_⟩, by rw [hrun]; rfl, ?_⟩
      · rw [hrun]
        exact log_batch_end_fresh _ db.log
          { executionType := n
            status := "RUNNING"
            rowsProcessed := (batchWindow n).2 - (batchWindow n).1 + 1
            rowsInserted := 0
            errorMessage := none
            startTime := db.clock
            endTime := none }
          n _ _ _ rfl rfl rfl fun en he _ => hfresh en he
      · refine ⟨dedupNew db.staging (batchCandidates n (batchWindow n).1
          ((batchWindowRows file (batchWindow n).1 (batchWindow n).2).filter
            keepRecord)), hnew, by rw [hc], by rw [hc]⟩
    · have hrun : run_incremental_batch db (.ok file) (some n) f =
          (false, log_batch_end
            (update_dimensions_incremental
              { log_batch_start db n (batchWindow n).1 (batchWindow n).2 with
                staging := (load_batch_to_staging (.ok file) n (batchWindow n).1
                  (batchWindow n).2 db.staging).2 })
            n "FAILED" 0 (some "Error appending to transactions")) := by
        simp only [run_incremental_batch, resolveBatchNumber, log_batch_start_staging]
        rw [hc]
        simp [hbeq, hfd, hff]
      refine ⟨by rw [hrun], ⟨"Error appending to transactions", ?_⟩,
        by rw [hrun]; rfl, ?_⟩
      · rw [hrun]
        exact log_batch_end_fresh _ db.log
          { executionType := n
            status := "RUNNING"
            rowsProcessed := (batchWindow n).2 - (batchWindow n).1 + 1
            rowsInserted := 0
            errorMessage := none
            startTime := db.clock
            endTime := none }
          n _ _ _ rfl rfl rfl fun en he _ => hfresh en he
      · refine ⟨dedupNew db.staging (batchCandidates n (batchWindow n).1
          ((batchWindowRows file (batchWindow n).1 (batchWindow n).2).filter
            keepRecord)), hnew, by rw [hc], by rw [hc]⟩

/-- Witness for `failed_attempt_log`: a one-row extract on the empty
warehouse with a simulated aggregation failure. -/
theorem failed_attempt_log_witness :
    (dimFault.dimensions = true ∨
      (dimFault.dimensions = false ∧ dimFault.factAppend = true)) ∧
    (∀ en ∈ DB.empty.log, en.startTime < DB.empty.clock) ∧
    (load_batch_to_staging (.ok [goodRaw]) 1 (batchWindow 1).1 (batchWindow 1).2
      DB.empty.staging).1 ≠ 0 ∧
    ((run_incremental_batch DB.empty (.ok [goodRaw]) (some 1) dimFault).1 = false ∧
     (∃ msg, (run_incremental_batch DB.empty (.ok [goodRaw]) (some 1) dimFault).2.log =
       DB.empty.log ++
       [{ executionType := 1
          status := "FAILED"
          rowsProcessed := (batchWindow 1).2 - (batchWindow 1).1 + 1
          rowsInserted := 0
          errorMessage := some msg
          startTime := DB.empty.clock
          endTime := some (DB.empty.clock + 1) }]) ∧
     (run_incremental_batch DB.empty (.ok [goodRaw]) (some 1) dimFault).2.staging =
       (load_batch_to_staging (.ok [goodRaw]) 1 (batchWindow 1).1 (batchWindow 1).2
         DB.empty.staging).2 ∧
     (∃ newRows, newRows ≠ [] ∧
       (load_batch_to_staging (.ok [goodRaw]) 1 (batchWindow 1).1 (batchWindow 1).2
         DB.empty.staging).2 = DB.empty.staging ++ newRows ∧
       newRows.length =
         (load_batch_to_staging (.ok [goodRaw]) 1 (batchWindow 1).1 (batchWindow 1).2
           DB.empty.staging).1)) :=
  ⟨Or.inl rfl, by simp [DB.empty], by decide,
    failed_attempt_log DB.empty (.ok [goodRaw]) 1 dimFault (Or.inl rfl)
      (by simp [DB.empty]) (by decide)⟩

/-! ### Sanitization -/

/-- Raw records survive into `withOrdinals` pairs from the cleaned list. -/
theorem withOrdinals_fst_mem (l : List RawRecord) :
    ∀ (s : Nat) (p : RawRecord × Nat), p ∈ withOrdinals s l → p.1 ∈ l := by
  induction l with
  | nil => intro s p hp; simp [withOrdinals] at hp
  | cons x xs ih =>
    intro s p hp
    rcases (by simpa [withOrdinals] using hp : p = (x, s) ∨ p ∈ withOrdinals (s + 1) xs) with
      h | h
    · simp [h]
    · exact List.mem_cons_of_mem x (ih (s + 1) p h)

/-- A record that passed sanitization is staged with non-zero quantity. -/
theorem mkStaged_quantity_ne_zero (b o : Nat) (r : RawRecord)
    (h : keepRecord r = true) : (mkStaged b o r).quantity ≠ 0 := by
  cases hq : r.quantity with
  | none => simp [keepRecord, hq] at h
  | some q =>
    have hq0 : q ≠ 0 := by
      intro h0
      rw [h0] at hq
      simp [keepRecord, hq] at h
    simpa [mkStaged, hq] using hq0

/-- **C6** (counterexample).  A window holding one record with an
unparseable non-null timestamp and one fully valid record: the claim says
the bad record is dropped and counted while the batch continues, so the
valid record would be staged; instead `pd.to_datetime` raises, the outer
handler returns 0, and nothing at all is staged. -/
theorem sanitizer_raise_counterexample :
    keepRecord goodRaw = true ∧
    keepRecord badDateRaw = false ∧
    hasUnparseableDate [badDateRaw, goodRaw] = true ∧
    load_batch_to_staging (.ok [badDateRaw, goodRaw]) 1 1 1000 [] = (0, []) :=
  ⟨rfl, rfl, rfl, rfl⟩

/-- **C6** (amended).  Provided no record of the window carries a non-null
unparseable timestamp (in which case the whole load aborts with 0 instead,
see the counterexample), a record is dropped by sanitization — silently,
by filtering, the batch continuing — exactly when one of invoice id, stock
code, invoice timestamp, quantity or unit price is null or failed numeric
coercion, or the quantity is zero; the rows written are exactly the
surviving ones (after dedup), a zero-quantity record never enters staging,
dimension aggregates draw only on staging rows, and fact rows never carry
zero quantity. -/
theorem sanitization_filter (file : List RawRecord) (b s e : Nat)
    (st : List StagedRecord)
    (hdates : hasUnparseableDate (batchWindowRows file s e) = false)
    (hstore : ∀ r ∈ st, r.quantity ≠ 0) :
    (∀ r : RawRecord, keepRecord r = true ↔
      (r.invoiceNo ≠ none ∧ r.stockCode ≠ none ∧
       (∃ t, r.invoiceDate = DateCell.ok t) ∧
       r.quantity ≠ none ∧ r.unitPrice ≠ none ∧ r.quantity ≠ some 0)) ∧
    (load_batch_to_staging (.ok file) b s e st).2 =
      st ++ dedupNew st (batchCandidates b s
        ((batchWindowRows file s e).filter keepRecord)) ∧
    (∀ r ∈ (load_batch_to_staging (.ok file) b s e st).2, r.quantity ≠ 0) ∧
    (∀ (p : String) (r : StagedRecord),
      r ∈ productSourceRows ((load_batch_to_staging (.ok file) b s e st).2) p →
      r ∈ (load_batch_to_staging (.ok file) b s e st).2) ∧
    (∀ (facts : List FactRow) (fr : FactRow),
      (∀ g ∈ facts, g.quantity ≠ 0) →
      fr ∈ append_to_transactions_fact b
        ((load_batch_to_staging (.ok file) b s e st).2) facts →
      fr.quantity ≠ 0) := by
  have hchar : ∀ r : RawRecord, keepRecord r = true ↔
      (r.invoiceNo ≠ none ∧ r.stockCode ≠ none ∧
       (∃ t, r.invoiceDate = DateCell.ok t) ∧
       r.quantity ≠ none ∧ r.unitPrice ≠ none ∧ r.quantity ≠ some 0) := by
    intro r
    cases hd : r.invoiceDate <;>
      simp [keepRecord, hd, Option.isSome_iff_ne_none, and_assoc]
  have hshape : (load_batch_to_staging (.ok file) b s e st).2 =
      st ++ dedupNew st (batchCandidates b s
        ((batchWindowRows file s e).filter keepRecord)) := by
    simp only [load_batch_to_staging]
    by_cases hw : (batchWindowRows file s e).isEmpty
    · have hnil : batchWindowRows file s e = [] := List.isEmpty_iff.mp hw
      simp [hw, hnil, batchCandidates, withOrdinals, dedupNew]
    · by_cases hn : (dedupNew st (batchCandidates b s
        ((batchWindowRows file s e).filter keepRecord))).isEmpty
      · have hnil := List.isEmpty_iff.mp hn
        simp [hw, hdates, hn, hnil]
      · simp [hw, hdates, hn]
  have hq : ∀ r ∈ (load_batch_to_staging (.ok file) b s e st).2, r.quantity ≠ 0 := by
    intro r hr
    rw [hshape] at hr
    rcases List.mem_append.mp hr with h | h
    · exact hstore r h
    · have hc : r ∈ batchCandidates b s ((batchWindowRows file s e).filter keepRecord) :=
        List.mem_of_mem_filter h
      obtain ⟨p, hp, rfl⟩ := List.mem_map.mp hc
      have hk : keepRecord p.1 = true :=
        (List.mem_filter.mp (withOrdinals_fst_mem _ s p hp)).2
      exact mkStaged_quantity_ne_zero b p.2 p.1 hk
  refine ⟨hchar, hshape, hq, ?_, ?_⟩
  · intro p r hr
    exact List.mem_of_mem_filter hr
  · intro facts fr hfacts hfr
    rcases List.mem_append.mp hfr with h | h
    · exact hfacts fr h
    · obtain ⟨sr, hsr, rfl⟩ := List.mem_map.mp h
      have hfil := (List.mem_filter.mp hsr).2
      rw [factFilter, Bool.and_eq_true] at hfil
      have hq0 : sr.quantity ≠ 0 := by
        intro h0
        have hb := hfil.2
        rw [h0] at hb
        simp at hb
      simpa [mkFactRow] using hq0

/-- Witness for `sanitization_filter`: a one-record window on the empty
staging store. -/
theorem sanitization_filter_witness :
    hasUnparseableDate (batchWindowRows [goodRaw] 1 1000) = false ∧
    (∀ r ∈ ([] : List StagedRecord), r.quantity ≠ 0) ∧
    ((load_batch_to_staging (.ok [goodRaw]) 1 1 1000 []).2 =
      [] ++ dedupNew [] (batchCandidates 1 1
        ((batchWindowRows [goodRaw] 1 1000).filter keepRecord)) ∧
     (∀ r ∈ (load_batch_to_staging (.ok [goodRaw]) 1 1 1000 []).2, r.quantity ≠ 0)) :=
  ⟨rfl, by simp, by
    have := sanitization_filter [goodRaw] 1 1 1000 [] rfl (by simp)
    exact ⟨this.2.1, this.2.2.1⟩⟩

/-! ### Ordinal reassignment and the high-water mark -/

/-- The ordinals stamped on the cleaned rows are the contiguous range
starting at `start_row` — positions in the cleaned frame, not positions in
the source file. -/
theorem withOrdinals_snd_range (l : List RawRecord) :
    ∀ s : Nat, (withOrdinals s l).map (·.2) = List.range' s l.length := by
  induction l with
  | nil => intro s; simp [withOrdinals]
  | cons x xs ih =>
    intro s
    simp [withOrdinals, List.range'_succ, ih (s + 1)]

/-- Ordinal bounds for batch candidates. -/
theorem batchCandidates_ord_bounds (b s : Nat) (cleaned : List RawRecord)
    (r : StagedRecord) (hr : r ∈ batchCandidates b s cleaned) :
    s ≤ r.rowNumberInFile ∧ r.rowNumberInFile < s + cleaned.length := by
  obtain ⟨p, hp, rfl⟩ := List.mem_map.mp hr
  exact ⟨withOrdinals_snd_ge _ s p hp, withOrdinals_snd_lt _ s p hp⟩

/-- A fold of `max` over values below a bound stays below it. -/
theorem foldr_max_lt (xs : List Nat) (c bound : Nat) (hc : c < bound)
    (h : ∀ x ∈ xs, x < bound) : xs.foldr max c < bound := by
  induction xs with
  | nil => exact hc
  | cons x xs ih =>
    rw [List.foldr_cons]
    exact Nat.max_lt.mpr ⟨h x (by simp), ih fun y hy => h y (by simp [hy])⟩

/-- Every member bounds the `max` fold from below. -/
theorem le_foldr_max (xs : List Nat) (c x : Nat) (hx : x ∈ xs) :
    x ≤ xs.foldr max c := by
  induction xs with
  | nil => cases hx
  | cons y ys ih =>
    rw [List.foldr_cons]
    rcases List.mem_cons.mp hx with rfl | h
    · exact Nat.le_max_left _ _
    · exact Nat.le_trans (ih h) (Nat.le_max_right _ _)

/-- The seed bounds the `max` fold from below. -/
theorem init_le_foldr_max (xs : List Nat) (c : Nat) : c ≤ xs.foldr max c := by
  induction xs with
  | nil => exact Nat.le_refl c
  | cons y ys ih =>
    rw [List.foldr_cons]
    exact Nat.le_trans ih (Nat.le_max_right _ _)

/-- **C10.** `ROW_NUMBER_IN_FILE` is stamped as the contiguous range
`start_row, start_row+1, ...` over only the rows surviving sanitization,
not each record's true source position; hence when a newest batch with at
least one rejected row loads at least one row, the staging store's maximum
ordinal stays strictly below `end_row` and the auto-derived next batch
number `floor(max/1000) + 1` equals the just-completed batch number
again. -/
theorem ordinal_reassignment (file : List RawRecord) (st : List StagedRecord)
    (b : Nat) (hb : 1 ≤ b)
    (hold : ∀ r ∈ st, r.rowNumberInFile < (batchWindow b).1)
    (hrej : ((batchWindowRows file (batchWindow b).1 (batchWindow b).2).filter
        keepRecord).length <
      (batchWindowRows file (batchWindow b).1 (batchWindow b).2).length)
    (hloaded : (load_batch_to_staging (.ok file) b (batchWindow b).1 (batchWindow b).2
      st).1 ≠ 0) :
    ((withOrdinals (batchWindow b).1
        ((batchWindowRows file (batchWindow b).1 (batchWindow b).2).filter
          keepRecord)).map (·.2) =
      List.range' (batchWindow b).1
        ((batchWindowRows file (batchWindow b).1 (batchWindow b).2).filter
          keepRecord).length) ∧
    get_last_processed_row false
      (load_batch_to_staging (.ok file) b (batchWindow b).1 (batchWindow b).2 st).2 <
      (batchWindow b).2 ∧
    get_last_processed_row false
      (load_batch_to_staging (.ok file) b (batchWindow b).1 (batchWindow b).2 st).2 /
        batchSize + 1 = b := by
  rcases load_ok_cases file b (batchWindow b).1 (batchWindow b).2 st with
    hc | ⟨hw, hd, hnew, hc⟩
  · rw [hc] at hloaded
    exact absurd rfl hloaded
  · have hs : (batchWindow b).1 = (b - 1) * 1000 + 1 := rfl
    have he : (batchWindow b).2 = b * 1000 := rfl
    have hwin : (batchWindowRows file (batchWindow b).1 (batchWindow b).2).length ≤
        (batchWindow b).2 - (batchWindow b).1 + 1 := by
      simp only [batchWindowRows]
      exact List.length_take_le ((batchWindow b).2 - (batchWindow b).1 + 1)
        (file.drop ((batchWindow b).1 - 1))
    have hglp : get_last_processed_row false
        (load_batch_to_staging (.ok file) b (batchWindow b).1 (batchWindow b).2 st).2 =
        ((st.map (·.rowNumberInFile)).foldr max
          ((((dedupNew st (batchCandidates b (batchWindow b).1
            ((batchWindowRows file (batchWindow b).1 (batchWindow b).2).filter
              keepRecord))).map (·.rowNumberInFile))).foldr max 0)) := by
      rw [hc]
      simp [get_last_processed_row, List.map_append, List.foldr_append]
    have hub : ∀ r ∈ dedupNew st (batchCandidates b (batchWindow b).1
        ((batchWindowRows file (batchWindow b).1 (batchWindow b).2).filter keepRecord)),
        (batchWindow b).1 ≤ r.rowNumberInFile ∧ r.rowNumberInFile < (batchWindow b).2 := by
      intro r hr
      have hcand := List.mem_of_mem_filter hr
      have hbd := batchCandidates_ord_bounds _ _ _ _ hcand
      refine ⟨hbd.1, ?_⟩
      have := hbd.2
      omega
    have hmax_lt : get_last_processed_row false
        (load_batch_to_staging (.ok file) b (batchWindow b).1 (batchWindow b).2 st).2 <
        (batchWindow b).2 := by
      rw [hglp]
      apply foldr_max_lt
      · apply foldr_max_lt
        · omega
        · intro x hx
          obtain ⟨r, hr, rfl⟩ := List.mem_map.mp hx
          exact (hub r hr).2
      · intro x hx
        obtain ⟨r, hr, rfl⟩ := List.mem_map.mp hx
        have := hold r hr
        omega
    have hmax_ge : (batchWindow b).1 ≤ get_last_processed_row false
        (load_batch_to_staging (.ok file) b (batchWindow b).1 (batchWindow b).2 st).2 := by
      rw [hglp]
      obtain ⟨c₀, hc₀⟩ := List.exists_mem_of_ne_nil _ hnew
      have h1 : (batchWindow b).1 ≤
          (((dedupNew st (batchCandidates b (batchWindow b).1
            ((batchWindowRows file (batchWindow b).1 (batchWindow b).2).filter
              keepRecord))).map (·.rowNumberInFile))).foldr max 0 :=
        Nat.le_trans (hub c₀ hc₀).1
          (le_foldr_max _ 0 _ (List.mem_map.mpr ⟨c₀, hc₀, rfl⟩))
      exact Nat.le_trans h1 (init_le_foldr_max _ _)
    refine ⟨withOrdinals_snd_range _ _, hmax_lt, ?_⟩
    have hB : batchSize = 1000 := rfl
    set M := get_last_processed_row false
      (load_batch_to_staging (.ok file) b (batchWindow b).1 (batchWindow b).2 st).2 with hM
    rw [hs] at hmax_ge
    rw [he] at hmax_lt
    rw [hB]
    omega

/-- Witness for `ordinal_reassignment`: batch 1 of a two-row extract whose
first row is rejected; the surviving row is stamped ordinal 1 though it sat
at source position 2, and the derived next batch is 1 again. -/
theorem ordinal_reassignment_witness :
    1 ≤ 1 ∧
    (∀ r ∈ ([] : List StagedRecord), r.rowNumberInFile < (batchWindow 1).1) ∧
    (((batchWindowRows [junkRaw, goodRaw] (batchWindow 1).1 (batchWindow 1).2).filter
        keepRecord).length <
      (batchWindowRows [junkRaw, goodRaw] (batchWindow 1).1 (batchWindow 1).2).length) ∧
    (load_batch_to_staging (.ok [junkRaw, goodRaw]) 1 (batchWindow 1).1 (batchWindow 1).2
      []).1 ≠ 0 ∧
    (get_last_processed_row false
      (load_batch_to_staging (.ok [junkRaw, goodRaw]) 1 (batchWindow 1).1
        (batchWindow 1).2 []).2 < (batchWindow 1).2 ∧
     get_last_processed_row false
      (load_batch_to_staging (.ok [junkRaw, goodRaw]) 1 (batchWindow 1).1
        (batchWindow 1).2 []).2 / batchSize + 1 = 1) :=
  ⟨Nat.le_refl 1, by simp, by decide, by decide,
    (ordinal_reassignment [junkRaw, goodRaw] [] 1 (Nat.le_refl 1) (by simp)
      (by decide) (by decide)).2⟩

/-! ### Dimension aggregation provenance -/

set_option maxRecDepth 100000 in
/-- **C1** (code bug).  The dimension MERGE filters staging with
`DATA_SOURCE LIKE '%BATCH_%'` (line 233), which matches the provenance tag
of every batch, not only the current one — while the fact publisher uses
the exact tag `DATA_SOURCE = 'CSV_BATCH_<n>'` (line 385).  Loading two
disjoint batches that each contribute one positive-quantity `P1` sale with
quantity 1 therefore ends with `TOTAL_QUANTITY_SOLD = 3`: batch 2's merge
re-aggregates batch 1's rows and adds the combined delta 2 to the stored 1,
instead of the claimed sum of per-batch deltas 1 + 1 = 2. -/
theorem dimension_delta_double_count :
    ((run_incremental_batch
        (run_incremental_batch DB.empty (.ok csvTwoBatches) (some 1) Faults.none).2
        (.ok csvTwoBatches) (some 2) Faults.none).2.products "P1").map
      (·.totalQuantitySold) = some 3 ∧
    (run_incremental_batch
        (run_incremental_batch DB.empty (.ok csvTwoBatches) (some 1) Faults.none).2
        (.ok csvTwoBatches) (some 2) Faults.none).2.staging =
      [mkStaged 1 1 saleRaw1, mkStaged 2 1001 saleRaw2] ∧
    productNewQuantitySold [mkStaged 1 1 saleRaw1] "P1" = 1 ∧
    productNewQuantitySold [mkStaged 2 1001 saleRaw2] "P1" = 1 ∧
    (3 : Int) ≠ 1 + 1 :=
  ⟨rfl, rfl, rfl, rfl, by decide⟩

end DatalakeDemo
